import Mathlib

/-!
# VMU bridge (core/vmu/vmu_bridge.h, core/vmu/vmu_bridge.cpp)

A shallow embedding of the VMU bridge of Flycast DualScreen Experimental and
proofs of properties of its operations.

Modelling conventions.

* The file-scope globals of the anonymous namespace (vmu_bridge.cpp:36-59)
  become the fields of `BridgeState`, with the names of the source.  A C array
  `T g[MAX_VMU_COUNT]` is a function `Fin MAX_VMU_COUNT → T`; an element store
  `g[i] = v` is `Function.update g i v`.  The only way an operation obtains an
  index is `slotIndex`, which asks for a proof that the range guard of the
  source (`vmu_id < 0 || vmu_id >= MAX_VMU_COUNT`) was false.
* `int vmu_id` is an `Int`; `u8`, `u32`, `u64` values are `Nat` (no operation
  here does arithmetic on a pixel or a timestamp, they are only stored and
  copied).
* A buffer of `VMU_LCD_PIXELS` pixels is a `Framebuffer`.  A `u32* dest` that
  may be null is an `Option Framebuffer` holding the current contents of the
  destination, `none` being `nullptr`.
* `std::function` values are `Option Nat`: `none` is the empty function
  (what `nullptr` converts to), `some k` is the callable number `k`.  The body
  of a callable lies outside the bridge; a call is recorded as a
  `CallbackCall`, together with the bridge state the callee finds.  The callee
  is taken not to call back into the bridge.
* `vmu_lcd_status` and `vmu_lcd_data` are declared in rend/osd.h, which is not
  part of the sources at hand: they are the parameter `Osd`.
* Each operation is one sequential execution of its body (mutexes and atomics
  are not modelled; `exchange` is read-then-write in one step).  The one
  exception is `pollAndCopyDuringUpdate`, which runs the stores of one
  `onVmuDisplayUpdate` (`updateStores`, in program order) with the two calls
  of a consumer thread in between; each store, the exchange and the copy under
  the mutex are the indivisible steps.
-/

namespace vmu_bridge

/-- Constant `VMU_LCD_WIDTH` (vmu_bridge.h:41). -/
abbrev VMU_LCD_WIDTH : Nat := 48

/-- Constant `VMU_LCD_HEIGHT` (vmu_bridge.h:42). -/
abbrev VMU_LCD_HEIGHT : Nat := 32

/-- Constant `VMU_LCD_PIXELS` (vmu_bridge.h:43), 1536 pixels. -/
abbrev VMU_LCD_PIXELS : Nat := VMU_LCD_WIDTH * VMU_LCD_HEIGHT

/-- Constant `MAX_VMU_COUNT` (vmu_bridge.h:47). -/
abbrev MAX_VMU_COUNT : Nat := 8

/-- Enumeration `VmuButton` (vmu_bridge.h:50-59). -/
inductive VmuButton where
  | MODE
  | SLEEP
  | UP
  | DOWN
  | LEFT
  | RIGHT
  | A
  | B
  deriving DecidableEq, Repr

/-- The `u8` value of an enumerator, `static_cast<u8>(button)`
(vmu_bridge.h:51-58, vmu_bridge.cpp:188). -/
def VmuButton.toU8 : VmuButton → Nat
  | .MODE => 0x01
  | .SLEEP => 0x02
  | .UP => 0x04
  | .DOWN => 0x08
  | .LEFT => 0x10
  | .RIGHT => 0x20
  | .A => 0x40
  | .B => 0x80

/-- A buffer of `VMU_LCD_PIXELS` values of type `u32`. -/
abbrev Framebuffer : Type := Fin VMU_LCD_PIXELS → Nat

/-- Type `VmuUpdateCallback` (vmu_bridge.h:63): `none` is the empty
`std::function`, `some k` the callable number `k`. -/
abbrev VmuUpdateCallback : Type := Option Nat

/-- The globals of the anonymous namespace (vmu_bridge.cpp:33-60). -/
structure BridgeState where
  /-- Line 36. -/
  g_enabled : Bool
  /-- Line 39. -/
  g_dirty : Fin MAX_VMU_COUNT → Bool
  /-- Line 42. -/
  g_connected : Fin MAX_VMU_COUNT → Bool
  /-- Line 45. -/
  g_buttonState : Fin MAX_VMU_COUNT → Nat
  /-- Line 48. -/
  g_framebufferCopy : Fin MAX_VMU_COUNT → Framebuffer
  /-- Line 52. -/
  g_lastUpdate : Fin MAX_VMU_COUNT → Nat
  /-- Line 55. -/
  g_updateCallback : VmuUpdateCallback
  /-- Line 59. -/
  g_initialized : Bool

/-- The arrays `vmu_lcd_status` and `vmu_lcd_data` of rend/osd.h, read by
`isVmuActive` and `getVmuFramebuffer`.  They belong to the emulator, not to the
bridge, and are a parameter of the operations that read them. -/
structure Osd where
  /-- One flag for each slot. -/
  vmu_lcd_status : Fin MAX_VMU_COUNT → Bool
  /-- One row of pixels for each slot. -/
  vmu_lcd_data : Fin MAX_VMU_COUNT → Framebuffer

/-- One call of the registered callable, `callback(vmu_id, framebuffer,
timestamp)` (vmu_bridge.cpp:236), with the bridge state at the time of the
call. -/
structure CallbackCall where
  /-- The callable that is called. -/
  target : Nat
  /-- First argument. -/
  vmu_id : Int
  /-- Second argument: the buffer the pointer refers to. -/
  framebuffer : Framebuffer
  /-- Third argument. -/
  timestamp : Nat
  /-- The bridge state when the call is made. -/
  atCall : BridgeState

/-- The state of the globals when the program starts: static storage is
zero-initialised, the atomics are brace-initialised with `false` and zero, the
`std::function` is empty (vmu_bridge.cpp:36-59). -/
def startup : BridgeState where
  g_enabled := false
  g_dirty := fun _ => false
  g_connected := fun _ => false
  g_buttonState := fun _ => 0
  g_framebufferCopy := fun _ _ => 0
  g_lastUpdate := fun _ => 0
  g_updateCallback := none
  g_initialized := false

/-- The array index an identifier stands for once the range guard
`vmu_id < 0 || vmu_id >= MAX_VMU_COUNT` has been found false. -/
def slotIndex (vmu_id : Int) (h : ¬ (vmu_id < 0 ∨ vmu_id ≥ MAX_VMU_COUNT)) :
    Fin MAX_VMU_COUNT :=
  ⟨vmu_id.toNat, by simp only [MAX_VMU_COUNT] at h ⊢; omega⟩

/-- Body of the loop of `init` (vmu_bridge.cpp:72-76) for index `i`. -/
def initSlot (st : BridgeState) (i : Fin MAX_VMU_COUNT) : BridgeState :=
  let st := { st with g_dirty := Function.update st.g_dirty i false }
  let st := { st with g_connected := Function.update st.g_connected i false }
  let st := { st with g_buttonState := Function.update st.g_buttonState i 0 }
  let st := { st with g_lastUpdate := Function.update st.g_lastUpdate i 0 }
  { st with g_framebufferCopy := Function.update st.g_framebufferCopy i (fun _ => 0) }

/-- Function `init` (vmu_bridge.cpp:62-81). -/
def init (st : BridgeState) : BridgeState :=
  if st.g_initialized then
    st
  else
    let st := { st with g_initialized := true }
    let st := (List.finRange MAX_VMU_COUNT).foldl initSlot st
    { st with g_enabled := true }

/-- Function `term` (vmu_bridge.cpp:83-99). -/
def term (st : BridgeState) : BridgeState :=
  if !st.g_initialized then
    st
  else
    let st := { st with g_initialized := false }
    let st := { st with g_enabled := false }
    { st with g_updateCallback := none }

/-- Function `isEnabled` (vmu_bridge.cpp:101-104). -/
def isEnabled (st : BridgeState) : Bool :=
  st.g_initialized && st.g_enabled

/-- Function `setEnabled` (vmu_bridge.cpp:106-110). -/
def setEnabled (st : BridgeState) (enabled : Bool) : BridgeState :=
  { st with g_enabled := enabled }

/-- Function `getConnectedVmuCount` (vmu_bridge.cpp:112-121). -/
def getConnectedVmuCount (st : BridgeState) : Int :=
  (List.finRange MAX_VMU_COUNT).foldl
    (fun count i => if st.g_connected i then count + 1 else count) 0

/-- Function `isVmuActive` (vmu_bridge.cpp:123-130). -/
def isVmuActive (osd : Osd) (st : BridgeState) (vmu_id : Int) : Bool :=
  if h : vmu_id < 0 ∨ vmu_id ≥ MAX_VMU_COUNT then
    false
  else
    st.g_connected (slotIndex vmu_id h) || osd.vmu_lcd_status (slotIndex vmu_id h)

/-- Function `isVmuDisplayDirty` (vmu_bridge.cpp:132-138): the value returned
and the state after the exchange. -/
def isVmuDisplayDirty (st : BridgeState) (vmu_id : Int) : Bool × BridgeState :=
  if h : vmu_id < 0 ∨ vmu_id ≥ MAX_VMU_COUNT then
    (false, st)
  else
    (st.g_dirty (slotIndex vmu_id h),
      { st with g_dirty := Function.update st.g_dirty (slotIndex vmu_id h) false })

/-- Function `getVmuFramebuffer` (vmu_bridge.cpp:140-151): `none` is
`nullptr`, `some i` is the address of row `i` of `vmu_lcd_data`. -/
def getVmuFramebuffer (osd : Osd) (st : BridgeState) (vmu_id : Int) :
    Option (Fin MAX_VMU_COUNT) :=
  if h : vmu_id < 0 ∨ vmu_id ≥ MAX_VMU_COUNT then
    none
  else if !isVmuActive osd st vmu_id then
    none
  else
    some (slotIndex vmu_id h)

/-- Function `getVmuLastUpdate` (vmu_bridge.cpp:153-159). -/
def getVmuLastUpdate (st : BridgeState) (vmu_id : Int) : Nat :=
  if h : vmu_id < 0 ∨ vmu_id ≥ MAX_VMU_COUNT then
    0
  else
    st.g_lastUpdate (slotIndex vmu_id h)

/-- Function `copyVmuFramebuffer` (vmu_bridge.cpp:161-173): the value returned
and the contents of the destination afterwards. -/
def copyVmuFramebuffer (osd : Osd) (st : BridgeState) (vmu_id : Int)
    (dest : Option Framebuffer) : Bool × Option Framebuffer :=
  if h : vmu_id < 0 ∨ vmu_id ≥ MAX_VMU_COUNT then
    (false, dest)
  else
    match dest with
    | none => (false, dest)
    | some _ =>
      if !isVmuActive osd st vmu_id then
        (false, dest)
      else
        (true, some (st.g_framebufferCopy (slotIndex vmu_id h)))

/-- Function `registerUpdateCallback` (vmu_bridge.cpp:175-181). -/
def registerUpdateCallback (st : BridgeState) (callback : VmuUpdateCallback) :
    BridgeState :=
  { st with g_updateCallback := callback }

/-- The `u8` value of `~mask` for a `u8` mask (vmu_bridge.cpp:192): the
operand is promoted to `int`, complemented, and converted back to `u8` by
the compound assignment. -/
def notU8 (mask : Nat) : Nat :=
  ((-1 - (mask : Int)) % 256).toNat

/-- Function `sendVmuButtonState` (vmu_bridge.cpp:183-196). -/
def sendVmuButtonState (st : BridgeState) (vmu_id : Int) (button : VmuButton)
    (pressed : Bool) : BridgeState :=
  if h : vmu_id < 0 ∨ vmu_id ≥ MAX_VMU_COUNT then
    st
  else
    let mask := button.toU8
    let old := st.g_buttonState (slotIndex vmu_id h)
    if pressed then
      { st with g_buttonState := Function.update st.g_buttonState (slotIndex vmu_id h) (old ||| mask) }
    else
      { st with g_buttonState := Function.update st.g_buttonState (slotIndex vmu_id h) (old &&& notU8 mask) }

/-- Function `getVmuButtonState` (vmu_bridge.cpp:198-204). -/
def getVmuButtonState (st : BridgeState) (vmu_id : Int) : Nat :=
  if h : vmu_id < 0 ∨ vmu_id ≥ MAX_VMU_COUNT then
    0
  else
    st.g_buttonState (slotIndex vmu_id h)

namespace internal

/-- Function `internal::onVmuDisplayUpdate` (vmu_bridge.cpp:208-238): the state
afterwards and the calls made, in order. -/
def onVmuDisplayUpdate (st : BridgeState) (vmu_id : Int) (framebuffer : Framebuffer)
    (timestamp : Nat) : BridgeState × List CallbackCall :=
  if !st.g_initialized || !st.g_enabled then
    (st, [])
  else if h : vmu_id < 0 ∨ vmu_id ≥ MAX_VMU_COUNT then
    (st, [])
  else
    let st := { st with g_dirty := Function.update st.g_dirty (slotIndex vmu_id h) true }
    let st := { st with
      g_lastUpdate := Function.update st.g_lastUpdate (slotIndex vmu_id h) timestamp }
    let st := { st with
      g_connected := Function.update st.g_connected (slotIndex vmu_id h) true }
    let st := { st with
      g_framebufferCopy :=
        Function.update st.g_framebufferCopy (slotIndex vmu_id h) framebuffer }
    let callback := st.g_updateCallback
    match callback with
    | none => (st, [])
    | some f => (st, [⟨f, vmu_id, framebuffer, timestamp, st⟩])

/-- Function `internal::onVmuConnectionChange` (vmu_bridge.cpp:240-259). -/
def onVmuConnectionChange (st : BridgeState) (vmu_id : Int) (connected : Bool) :
    BridgeState :=
  if !st.g_initialized then
    st
  else if h : vmu_id < 0 ∨ vmu_id ≥ MAX_VMU_COUNT then
    st
  else
    let st := { st with
      g_connected := Function.update st.g_connected (slotIndex vmu_id h) connected }
    if !connected then
      { st with
        g_framebufferCopy :=
          Function.update st.g_framebufferCopy (slotIndex vmu_id h) (fun _ => 0) }
    else
      st

end internal

/-- One call of an operation of the bridge, with its arguments. -/
inductive Op where
  | init
  | term
  | isEnabled
  | setEnabled (enabled : Bool)
  | getConnectedVmuCount
  | isVmuActive (vmu_id : Int)
  | isVmuDisplayDirty (vmu_id : Int)
  | getVmuFramebuffer (vmu_id : Int)
  | getVmuLastUpdate (vmu_id : Int)
  | copyVmuFramebuffer (vmu_id : Int) (dest : Option Framebuffer)
  | registerUpdateCallback (callback : VmuUpdateCallback)
  | sendVmuButtonState (vmu_id : Int) (button : VmuButton) (pressed : Bool)
  | getVmuButtonState (vmu_id : Int)
  | onVmuDisplayUpdate (vmu_id : Int) (framebuffer : Framebuffer) (timestamp : Nat)
  | onVmuConnectionChange (vmu_id : Int) (connected : Bool)

/-- The bridge state after one call.  The operations that only read the
globals (`isEnabled`, `getConnectedVmuCount`, `isVmuActive`,
`getVmuFramebuffer`, `getVmuLastUpdate`, `copyVmuFramebuffer`,
`getVmuButtonState`) leave it as it is. -/
def Op.apply (st : BridgeState) : Op → BridgeState
  | .init => vmu_bridge.init st
  | .term => vmu_bridge.term st
  | .isEnabled => st
  | .setEnabled enabled => vmu_bridge.setEnabled st enabled
  | .getConnectedVmuCount => st
  | .isVmuActive _ => st
  | .isVmuDisplayDirty vmu_id => (vmu_bridge.isVmuDisplayDirty st vmu_id).2
  | .getVmuFramebuffer _ => st
  | .getVmuLastUpdate _ => st
  | .copyVmuFramebuffer _ _ => st
  | .registerUpdateCallback callback => vmu_bridge.registerUpdateCallback st callback
  | .sendVmuButtonState vmu_id button pressed =>
      vmu_bridge.sendVmuButtonState st vmu_id button pressed
  | .getVmuButtonState _ => st
  | .onVmuDisplayUpdate vmu_id framebuffer timestamp =>
      (internal.onVmuDisplayUpdate st vmu_id framebuffer timestamp).1
  | .onVmuConnectionChange vmu_id connected =>
      internal.onVmuConnectionChange st vmu_id connected

/-- The calls of the registered callable that one call of an operation makes. -/
def Op.calls (st : BridgeState) : Op → List CallbackCall
  | .onVmuDisplayUpdate vmu_id framebuffer timestamp =>
      (internal.onVmuDisplayUpdate st vmu_id framebuffer timestamp).2
  | _ => []

/-- The slot identifier an operation is given, if it takes one. -/
def Op.slot? : Op → Option Int
  | .isVmuActive vmu_id => some vmu_id
  | .isVmuDisplayDirty vmu_id => some vmu_id
  | .getVmuFramebuffer vmu_id => some vmu_id
  | .getVmuLastUpdate vmu_id => some vmu_id
  | .copyVmuFramebuffer vmu_id _ => some vmu_id
  | .sendVmuButtonState vmu_id _ _ => some vmu_id
  | .getVmuButtonState vmu_id => some vmu_id
  | .onVmuDisplayUpdate vmu_id _ _ => some vmu_id
  | .onVmuConnectionChange vmu_id _ => some vmu_id
  | _ => none

/-- The bridge state after a sequence of calls, first call first. -/
def run (st : BridgeState) (ops : List Op) : BridgeState :=
  ops.foldl Op.apply st

/-- The all-white buffer of the scenario of the specification. -/
def whiteBuffer : Framebuffer := fun _ => 0xFFFFFFFF

/-- The state of the scenario before the display update: the bridge is
initialised from the start state and slot 0 is reported connected. -/
def scenarioState : BridgeState :=
  internal.onVmuConnectionChange (init startup) 0 true

/-- An emulator side in which no slot is reported present and every row of
`vmu_lcd_data` is blank. -/
def osdIdle : Osd where
  vmu_lcd_status := fun _ => false
  vmu_lcd_data := fun _ _ => 0

/-- The all-zero buffer. -/
def zeroBuffer : Framebuffer := fun _ => 0

/-- Whether the call `op`, made in state `st`, is an `onVmuDisplayUpdate` for
the identifier `s` that passes the guard on `g_initialized` and `g_enabled`
(vmu_bridge.cpp:210). -/
def Op.updatesDisplay (st : BridgeState) (s : Int) : Op → Bool
  | .onVmuDisplayUpdate vmu_id _ _ => st.g_initialized && st.g_enabled && decide (vmu_id = s)
  | _ => false

/-- No call of the sequence `ops`, made one after the other from `st` on, is a
display update for `s` that passes that guard. -/
def noDisplayUpdate (s : Int) : BridgeState → List Op → Bool
  | _, [] => true
  | st, op :: ops => !op.updatesDisplay st s && noDisplayUpdate s (op.apply st) ops

/-- The calls made between the two polls in the example for the dirty flag: an update of
another slot, a poll, a disconnection and reconnection of slot 0, a button
press, `term`, an update that is dropped because the bridge is terminated,
and `init`. -/
def quietCalls : List Op :=
  [Op.onVmuDisplayUpdate 1 whiteBuffer 101, Op.isVmuDisplayDirty 0,
    Op.onVmuConnectionChange 0 false, Op.onVmuConnectionChange 0 true,
    Op.sendVmuButtonState 0 VmuButton.A true, Op.term,
    Op.onVmuDisplayUpdate 0 whiteBuffer 102, Op.init]

/-- An emulator side in which every slot is reported present. -/
def osdPresent : Osd where
  vmu_lcd_status := fun _ => true
  vmu_lcd_data := fun _ _ => 0

/-- The scenario after its display update: slot 0 holds the all-white buffer
with timestamp 100. -/
def updatedState : BridgeState :=
  (internal.onVmuDisplayUpdate scenarioState 0 whiteBuffer 100).1

/-- The state after `init`, `onVmuDisplayUpdate(0, white, 100)` and `term`,
from the start state: the bridge is terminated while slot 0 is still marked
connected and its mirror still holds the all-white buffer. -/
def staleState : BridgeState :=
  term (internal.onVmuDisplayUpdate (init startup) 0 whiteBuffer 100).1

/-- The five fields of one slot of the registry. -/
structure Slot where
  /-- Entry of `g_connected`. -/
  connected : Bool
  /-- Entry of `g_dirty`. -/
  dirty : Bool
  /-- Entry of `g_buttonState`. -/
  buttonMask : Nat
  /-- Entry of `g_lastUpdate`. -/
  lastUpdateTimestamp : Nat
  /-- Row of `g_framebufferCopy`. -/
  framebufferCopy : Framebuffer

/-- The slot with index `i` in a bridge state. -/
def BridgeState.slot (st : BridgeState) (i : Fin MAX_VMU_COUNT) : Slot where
  connected := st.g_connected i
  dirty := st.g_dirty i
  buttonMask := st.g_buttonState i
  lastUpdateTimestamp := st.g_lastUpdate i
  framebufferCopy := st.g_framebufferCopy i

/-- The slots in `[0, 8)` whose connected flag in the registry is true. -/
def connectedSlots (st : BridgeState) : Finset (Fin MAX_VMU_COUNT) :=
  Finset.univ.filter (fun i => st.g_connected i = true)

/-- Byte `k` of a packed pixel, byte 0 being the least significant one. -/
def channel (k : Nat) (pixel : Nat) : Nat :=
  (pixel >>> (8 * k)) % 256

/-- Every pixel of the buffer has `0xFF` in byte `k`. -/
def solidBuffer (k : Nat) (b : Framebuffer) : Prop :=
  ∀ p, channel k (b p) = 0xFF

/-- The source buffer of the call, if it is a display update, has `0xFF` in
byte `k` of every pixel. -/
def Op.solidSource (k : Nat) : Op → Prop
  | .onVmuDisplayUpdate _ framebuffer _ => solidBuffer k framebuffer
  | _ => True

/-- The stores of `onVmuDisplayUpdate` to the slot arrays, in program order,
when the call is made in state `st`: none if a guard of lines 210-214 returns,
else the stores of lines 217, 218, 219 and the locked copy of lines 222-225. -/
def updateStores (st : BridgeState) (vmu_id : Int) (framebuffer : Framebuffer)
    (timestamp : Nat) : List (BridgeState → BridgeState) :=
  if !st.g_initialized || !st.g_enabled then
    []
  else if h : vmu_id < 0 ∨ vmu_id ≥ MAX_VMU_COUNT then
    []
  else
    [fun st => { st with g_dirty := Function.update st.g_dirty (slotIndex vmu_id h) true },
     fun st => { st with
       g_lastUpdate := Function.update st.g_lastUpdate (slotIndex vmu_id h) timestamp },
     fun st => { st with
       g_connected := Function.update st.g_connected (slotIndex vmu_id h) true },
     fun st => { st with
       g_framebufferCopy :=
         Function.update st.g_framebufferCopy (slotIndex vmu_id h) framebuffer }]

/-- The state after a list of stores, first store first. -/
def runStores (st : BridgeState) (stores : List (BridgeState → BridgeState)) : BridgeState :=
  stores.foldl (fun st store => store st) st

/-- What a consumer observes when it polls and copies while an update runs. -/
structure RaceResult where
  /-- Value returned by `isVmuDisplayDirty`. -/
  polled : Bool
  /-- Value returned by `copyVmuFramebuffer` and the destination afterwards. -/
  copied : Bool × Option Framebuffer
  /-- Bridge state when both threads are done. -/
  final : BridgeState

/-- One call `onVmuDisplayUpdate(vmu_id, framebuffer, timestamp)` on the
producer thread, started in state `st`, interleaved with a consumer thread
that calls `isVmuDisplayDirty(vmu_id)` and then
`copyVmuFramebuffer(vmu_id, dest)`: the producer performs its first `k1`
stores, the consumer polls, the producer performs its stores up to the
`k2`-th, the consumer copies, the producer performs the stores that remain.
Every store is an atomic store or a copy under the mutex of the slot, the
poll is one atomic exchange, and the copy runs under the same mutex. -/
def pollAndCopyDuringUpdate (osd : Osd) (st : BridgeState) (vmu_id : Int)
    (framebuffer : Framebuffer) (timestamp : Nat) (dest : Option Framebuffer)
    (k1 k2 : Nat) : RaceResult :=
  let stores := updateStores st vmu_id framebuffer timestamp
  let st1 := runStores st (stores.take k1)
  let poll := isVmuDisplayDirty st1 vmu_id
  let st2 := runStores poll.2 ((stores.drop k1).take (k2 - k1))
  let copy := copyVmuFramebuffer osd st2 vmu_id dest
  let st3 := runStores st2 ((stores.drop k1).drop (k2 - k1))
  { polled := poll.1, copied := copy, final := st3 }

/-- A second image: every pixel black with `0xFF` in the top byte. -/
def blackBuffer : Framebuffer := fun _ => 0xFF000000

/-- The scenario after its display update and one poll: slot 0 is connected,
its mirror holds the all-white buffer, its dirty flag has been consumed. -/
def polledState : BridgeState :=
  (isVmuDisplayDirty updatedState 0).2

/-- The scenario after its display update, with the MODE button of slot 0
pressed. -/
def pressedState : BridgeState :=
  sendVmuButtonState updatedState 0 VmuButton.MODE true

/-- Every slot whose connected flag in the registry is false has an all-zero
mirror buffer. -/
def mirrorBlankWhenDisconnected (st : BridgeState) : Prop :=
  ∀ i, st.g_connected i = false → st.g_framebufferCopy i = zeroBuffer

/-- Every mirror buffer is all-zero or has `0xFF` in byte `k` of every
pixel. -/
def mirrorBlankOrSolid (k : Nat) (st : BridgeState) : Prop :=
  ∀ i, st.g_framebufferCopy i = zeroBuffer ∨ solidBuffer k (st.g_framebufferCopy i)

/-- The calls of the scenario up to the connection of slot 0. -/
def connectCalls : List Op :=
  [Op.init, Op.onVmuConnectionChange 0 true]

/-- The calls `init`, update of slot 0 with the all-white buffer, and
disconnection of slot 0. -/
def disconnectCalls : List Op :=
  [Op.init, Op.onVmuDisplayUpdate 0 whiteBuffer 100, Op.onVmuConnectionChange 0 false]

/-- The calls `init` and update of slot 0 with the all-white buffer. -/
def updateCalls : List Op :=
  [Op.init, Op.onVmuDisplayUpdate 0 whiteBuffer 100]

/-! ## Lemmas shared by the proofs -/

theorem guard_false {s : Int} (h0 : 0 ≤ s) (h8 : s < 8) :
    ¬ (s < 0 ∨ s ≥ MAX_VMU_COUNT) := by
  simp only [MAX_VMU_COUNT]; omega

theorem guard_true_of_neg {s : Int} (h : s < 0) : s < 0 ∨ s ≥ MAX_VMU_COUNT :=
  Or.inl h

theorem guard_true_of_ge {s : Int} (h : 8 ≤ s) : s < 0 ∨ s ≥ MAX_VMU_COUNT := by
  simp only [MAX_VMU_COUNT]; omega

theorem isVmuActive_inRange (osd : Osd) (st : BridgeState) (s : Int)
    (h : ¬ (s < 0 ∨ s ≥ MAX_VMU_COUNT)) :
    isVmuActive osd st s
      = (st.g_connected (slotIndex s h) || osd.vmu_lcd_status (slotIndex s h)) := by
  unfold isVmuActive; rw [dif_neg h]

theorem isVmuDisplayDirty_inRange (st : BridgeState) (s : Int)
    (h : ¬ (s < 0 ∨ s ≥ MAX_VMU_COUNT)) :
    isVmuDisplayDirty st s
      = (st.g_dirty (slotIndex s h),
          { st with g_dirty := Function.update st.g_dirty (slotIndex s h) false }) := by
  unfold isVmuDisplayDirty; rw [dif_neg h]

theorem getVmuLastUpdate_inRange (st : BridgeState) (s : Int)
    (h : ¬ (s < 0 ∨ s ≥ MAX_VMU_COUNT)) :
    getVmuLastUpdate st s = st.g_lastUpdate (slotIndex s h) := by
  unfold getVmuLastUpdate; rw [dif_neg h]

theorem copyVmuFramebuffer_inRange (osd : Osd) (st : BridgeState) (s : Int)
    (d : Framebuffer) (h : ¬ (s < 0 ∨ s ≥ MAX_VMU_COUNT)) :
    copyVmuFramebuffer osd st s (some d)
      = if isVmuActive osd st s then (true, some (st.g_framebufferCopy (slotIndex s h)))
        else (false, some d) := by
  unfold copyVmuFramebuffer; rw [dif_neg h]
  cases isVmuActive osd st s <;> simp

theorem onVmuDisplayUpdate_off (st : BridgeState) (s : Int) (b : Framebuffer) (t : Nat)
    (h : st.g_initialized = false ∨ st.g_enabled = false) :
    internal.onVmuDisplayUpdate st s b t = (st, []) := by
  unfold internal.onVmuDisplayUpdate
  rcases h with h | h <;> simp [h]

theorem onVmuDisplayUpdate_state (st : BridgeState) (s : Int) (b : Framebuffer) (t : Nat)
    (hinit : st.g_initialized = true) (hen : st.g_enabled = true)
    (h : ¬ (s < 0 ∨ s ≥ MAX_VMU_COUNT)) :
    (internal.onVmuDisplayUpdate st s b t).1
      = { st with
          g_dirty := Function.update st.g_dirty (slotIndex s h) true
          g_lastUpdate := Function.update st.g_lastUpdate (slotIndex s h) t
          g_connected := Function.update st.g_connected (slotIndex s h) true
          g_framebufferCopy := Function.update st.g_framebufferCopy (slotIndex s h) b } := by
  unfold internal.onVmuDisplayUpdate
  rw [dif_neg h]
  simp only [hinit, hen, Bool.not_true, Bool.or_self, Bool.false_eq_true, if_false]
  cases st.g_updateCallback <;> rfl

theorem slotIndex_eq_iff {s s' : Int} (h : ¬ (s < 0 ∨ s ≥ MAX_VMU_COUNT))
    (h' : ¬ (s' < 0 ∨ s' ≥ MAX_VMU_COUNT)) :
    slotIndex s h = slotIndex s' h' ↔ s = s' := by
  unfold slotIndex
  simp only [MAX_VMU_COUNT] at h h'
  rw [Fin.mk.injEq]
  omega

theorem foldl_initSlot (l : List (Fin MAX_VMU_COUNT)) (st : BridgeState) :
    l.foldl initSlot st
      = { st with
          g_dirty := fun i => if i ∈ l then false else st.g_dirty i
          g_connected := fun i => if i ∈ l then false else st.g_connected i
          g_buttonState := fun i => if i ∈ l then 0 else st.g_buttonState i
          g_lastUpdate := fun i => if i ∈ l then 0 else st.g_lastUpdate i
          g_framebufferCopy := fun i => if i ∈ l then (fun _ => 0) else st.g_framebufferCopy i } := by
  induction l generalizing st with
  | nil => simp
  | cons a l ih =>
    rw [List.foldl_cons, ih]
    simp only [initSlot, List.mem_cons]
    congr 1 <;> funext i <;> by_cases hl : i ∈ l <;> by_cases ha : i = a <;>
      simp [hl, ha, Function.update]

theorem init_fresh (st : BridgeState) (h : st.g_initialized = false) :
    init st
      = { g_enabled := true
          g_dirty := fun _ => false
          g_connected := fun _ => false
          g_buttonState := fun _ => 0
          g_framebufferCopy := fun _ _ => 0
          g_lastUpdate := fun _ => 0
          g_updateCallback := st.g_updateCallback
          g_initialized := true } := by
  unfold init
  simp only [h, Bool.false_eq_true, if_false, foldl_initSlot, List.mem_finRange, if_true]

theorem init_running (st : BridgeState) (h : st.g_initialized = true) : init st = st := by
  unfold init; simp [h]

theorem init_g_dirty (st : BridgeState) (i : Fin MAX_VMU_COUNT)
    (h : st.g_dirty i = false) : (init st).g_dirty i = false := by
  cases hi : st.g_initialized
  · rw [init_fresh st hi]
  · rw [init_running st hi]; exact h

theorem term_g_dirty (st : BridgeState) : (term st).g_dirty = st.g_dirty := by
  unfold term; split <;> rfl

theorem sendVmuButtonState_g_dirty (st : BridgeState) (v : Int) (button : VmuButton)
    (pressed : Bool) : (sendVmuButtonState st v button pressed).g_dirty = st.g_dirty := by
  unfold sendVmuButtonState
  split
  · rfl
  · cases pressed <;> rfl

theorem onVmuConnectionChange_g_dirty (st : BridgeState) (v : Int) (c : Bool) :
    (internal.onVmuConnectionChange st v c).g_dirty = st.g_dirty := by
  unfold internal.onVmuConnectionChange
  split
  · rfl
  · split
    · rfl
    · cases c <;> rfl

theorem apply_g_dirty (st : BridgeState) (s : Int) (op : Op)
    (hs : ¬ (s < 0 ∨ s ≥ MAX_VMU_COUNT)) (hd : st.g_dirty (slotIndex s hs) = false)
    (hop : op.updatesDisplay st s = false) :
    (op.apply st).g_dirty (slotIndex s hs) = false := by
  cases op with
  | init => exact init_g_dirty st _ hd
  | term => simp only [Op.apply, term_g_dirty]; exact hd
  | isVmuDisplayDirty v =>
    simp only [Op.apply]
    unfold isVmuDisplayDirty
    split
    · exact hd
    · simp only [Function.update_apply]; split <;> simp [hd]
  | sendVmuButtonState v button pressed =>
    simp only [Op.apply, sendVmuButtonState_g_dirty]; exact hd
  | onVmuDisplayUpdate v b t =>
    simp only [Op.apply]
    by_cases hg : st.g_initialized = false ∨ st.g_enabled = false
    · rw [onVmuDisplayUpdate_off st v b t hg]; exact hd
    · have hi : st.g_initialized = true := by
        cases h : st.g_initialized <;> simp_all
      have he : st.g_enabled = true := by
        cases h : st.g_enabled <;> simp_all
      by_cases hv : v < 0 ∨ v ≥ MAX_VMU_COUNT
      · unfold internal.onVmuDisplayUpdate
        rw [dif_pos hv]; simpa using hd
      · rw [onVmuDisplayUpdate_state st v b t hi he hv]
        have hne : v ≠ s := by
          simpa [Op.updatesDisplay, hi, he] using hop
        have hidx : slotIndex s hs ≠ slotIndex v hv := fun e =>
          hne ((slotIndex_eq_iff hs hv).1 e).symm
        simp [Function.update_noteq hidx, hd]
  | onVmuConnectionChange v c =>
    simp only [Op.apply, onVmuConnectionChange_g_dirty]; exact hd
  | setEnabled e => exact hd
  | registerUpdateCallback cb => exact hd
  | isEnabled => exact hd
  | getConnectedVmuCount => exact hd
  | isVmuActive v => exact hd
  | getVmuFramebuffer v => exact hd
  | getVmuLastUpdate v => exact hd
  | copyVmuFramebuffer v d => exact hd
  | getVmuButtonState v => exact hd

theorem run_g_dirty (s : Int) (hs : ¬ (s < 0 ∨ s ≥ MAX_VMU_COUNT)) (ops : List Op) :
    ∀ st : BridgeState, st.g_dirty (slotIndex s hs) = false →
      noDisplayUpdate s st ops = true → (run st ops).g_dirty (slotIndex s hs) = false := by
  induction ops with
  | nil => intro st hd _; exact hd
  | cons op ops ih =>
    intro st hd hno
    simp only [noDisplayUpdate, Bool.and_eq_true, Bool.not_eq_true'] at hno
    have := ih (op.apply st) (apply_g_dirty st s op hs hd hno.1) hno.2
    simpa [run] using this

theorem onVmuConnectionChange_false_inRange (st : BridgeState) (s : Int)
    (hinit : st.g_initialized = true) (h : ¬ (s < 0 ∨ s ≥ MAX_VMU_COUNT)) :
    internal.onVmuConnectionChange st s false
      = { st with
          g_connected := Function.update st.g_connected (slotIndex s h) false
          g_framebufferCopy :=
            Function.update st.g_framebufferCopy (slotIndex s h) (fun _ => 0) } := by
  unfold internal.onVmuConnectionChange
  rw [dif_neg h]
  simp [hinit]

theorem term_running (st : BridgeState) (h : st.g_initialized = true) :
    term st = { st with g_initialized := false, g_enabled := false, g_updateCallback := none } := by
  unfold term; simp [h]

theorem term_stopped (st : BridgeState) (h : st.g_initialized = false) : term st = st := by
  unfold term; simp [h]

theorem sendVmuButtonState_inRange (st : BridgeState) (s : Int) (button : VmuButton)
    (pressed : Bool) (h : ¬ (s < 0 ∨ s ≥ MAX_VMU_COUNT)) :
    sendVmuButtonState st s button pressed
      = { st with
          g_buttonState := Function.update st.g_buttonState (slotIndex s h)
            (if pressed then st.g_buttonState (slotIndex s h) ||| button.toU8
             else st.g_buttonState (slotIndex s h) &&& notU8 button.toU8) } := by
  unfold sendVmuButtonState
  rw [dif_neg h]
  cases pressed <;> simp

theorem getVmuButtonState_inRange (st : BridgeState) (s : Int)
    (h : ¬ (s < 0 ∨ s ≥ MAX_VMU_COUNT)) :
    getVmuButtonState st s = st.g_buttonState (slotIndex s h) := by
  unfold getVmuButtonState; rw [dif_neg h]

theorem toU8_lt (button : VmuButton) : button.toU8 < 2 ^ 8 := by
  cases button <;> decide

theorem notU8_eq (mask : Nat) (h : mask < 2 ^ 8) : notU8 mask = 2 ^ 8 - (mask + 1) := by
  unfold notU8; omega

theorem testBit_notU8 (mask k : Nat) (h : mask < 2 ^ 8) :
    (notU8 mask).testBit k = (decide (k < 8) && !mask.testBit k) := by
  rw [notU8_eq mask h, Nat.testBit_two_pow_sub_succ h]

theorem testBit_u8_high (x k : Nat) (hx : x < 256) (hk : ¬ k < 8) : x.testBit k = false := by
  apply Nat.testBit_lt_two_pow
  calc x < 2 ^ 8 := hx
    _ ≤ 2 ^ k := Nat.pow_le_pow_right (by decide) (by omega)

theorem isVmuDisplayDirty_frame (st : BridgeState) (v : Int) :
    (isVmuDisplayDirty st v).2.g_connected = st.g_connected
    ∧ (isVmuDisplayDirty st v).2.g_buttonState = st.g_buttonState
    ∧ (isVmuDisplayDirty st v).2.g_lastUpdate = st.g_lastUpdate
    ∧ (isVmuDisplayDirty st v).2.g_framebufferCopy = st.g_framebufferCopy
    ∧ (isVmuDisplayDirty st v).2.g_enabled = st.g_enabled
    ∧ (isVmuDisplayDirty st v).2.g_initialized = st.g_initialized
    ∧ (isVmuDisplayDirty st v).2.g_updateCallback = st.g_updateCallback := by
  unfold isVmuDisplayDirty
  split <;> exact ⟨rfl, rfl, rfl, rfl, rfl, rfl, rfl⟩

theorem sendVmuButtonState_frame (st : BridgeState) (v : Int) (button : VmuButton)
    (pressed : Bool) :
    (sendVmuButtonState st v button pressed).g_connected = st.g_connected
    ∧ (sendVmuButtonState st v button pressed).g_dirty = st.g_dirty
    ∧ (sendVmuButtonState st v button pressed).g_lastUpdate = st.g_lastUpdate
    ∧ (sendVmuButtonState st v button pressed).g_framebufferCopy = st.g_framebufferCopy
    ∧ (sendVmuButtonState st v button pressed).g_enabled = st.g_enabled
    ∧ (sendVmuButtonState st v button pressed).g_initialized = st.g_initialized
    ∧ (sendVmuButtonState st v button pressed).g_updateCallback = st.g_updateCallback := by
  unfold sendVmuButtonState
  split
  · exact ⟨rfl, rfl, rfl, rfl, rfl, rfl, rfl⟩
  · cases pressed <;> exact ⟨rfl, rfl, rfl, rfl, rfl, rfl, rfl⟩

theorem term_frame (st : BridgeState) :
    (term st).g_connected = st.g_connected
    ∧ (term st).g_dirty = st.g_dirty
    ∧ (term st).g_buttonState = st.g_buttonState
    ∧ (term st).g_lastUpdate = st.g_lastUpdate
    ∧ (term st).g_framebufferCopy = st.g_framebufferCopy := by
  unfold term
  split <;> exact ⟨rfl, rfl, rfl, rfl, rfl⟩

theorem onVmuDisplayUpdate_outOfRange (st : BridgeState) (v : Int) (b : Framebuffer) (t : Nat)
    (g : v < 0 ∨ v ≥ MAX_VMU_COUNT) : internal.onVmuDisplayUpdate st v b t = (st, []) := by
  unfold internal.onVmuDisplayUpdate; rw [dif_pos g]; simp

theorem onVmuConnectionChange_off (st : BridgeState) (v : Int) (c : Bool)
    (h : st.g_initialized = false) : internal.onVmuConnectionChange st v c = st := by
  unfold internal.onVmuConnectionChange; simp [h]

theorem onVmuConnectionChange_outOfRange (st : BridgeState) (v : Int) (c : Bool)
    (g : v < 0 ∨ v ≥ MAX_VMU_COUNT) : internal.onVmuConnectionChange st v c = st := by
  unfold internal.onVmuConnectionChange; rw [dif_pos g]; simp

theorem onVmuConnectionChange_inRange (st : BridgeState) (s : Int) (c : Bool)
    (hinit : st.g_initialized = true) (h : ¬ (s < 0 ∨ s ≥ MAX_VMU_COUNT)) :
    internal.onVmuConnectionChange st s c
      = { st with
          g_connected := Function.update st.g_connected (slotIndex s h) c
          g_framebufferCopy :=
            if c then st.g_framebufferCopy
            else Function.update st.g_framebufferCopy (slotIndex s h) (fun _ => 0) } := by
  unfold internal.onVmuConnectionChange
  rw [dif_neg h]
  cases c <;> simp [hinit]

theorem onVmuConnectionChange_frame (st : BridgeState) (v : Int) (c : Bool) :
    (internal.onVmuConnectionChange st v c).g_buttonState = st.g_buttonState
    ∧ (internal.onVmuConnectionChange st v c).g_lastUpdate = st.g_lastUpdate
    ∧ (internal.onVmuConnectionChange st v c).g_enabled = st.g_enabled
    ∧ (internal.onVmuConnectionChange st v c).g_initialized = st.g_initialized
    ∧ (internal.onVmuConnectionChange st v c).g_updateCallback = st.g_updateCallback := by
  unfold internal.onVmuConnectionChange
  split
  · exact ⟨rfl, rfl, rfl, rfl, rfl⟩
  · split
    · exact ⟨rfl, rfl, rfl, rfl, rfl⟩
    · cases c <;> exact ⟨rfl, rfl, rfl, rfl, rfl⟩

theorem gate_open {st : BridgeState} (hg : ¬ (st.g_initialized = false ∨ st.g_enabled = false)) :
    st.g_initialized = true ∧ st.g_enabled = true := by
  cases hi : st.g_initialized <;> cases he : st.g_enabled <;> simp_all

theorem apply_g_lastUpdate (st : BridgeState) (s : Int) (op : Op)
    (hs : ¬ (s < 0 ∨ s ≥ MAX_VMU_COUNT)) (hop : op.updatesDisplay st s = false)
    (hinit : op = Op.init → st.g_initialized = true) :
    (op.apply st).g_lastUpdate (slotIndex s hs) = st.g_lastUpdate (slotIndex s hs) := by
  cases op with
  | init => simp only [Op.apply]; rw [init_running st (hinit rfl)]
  | term => simp only [Op.apply, (term_frame st).2.2.2.1]
  | isVmuDisplayDirty v => simp only [Op.apply, (isVmuDisplayDirty_frame st v).2.2.1]
  | sendVmuButtonState v button pressed =>
    simp only [Op.apply, (sendVmuButtonState_frame st v button pressed).2.2.1]
  | onVmuDisplayUpdate v b t =>
    simp only [Op.apply]
    by_cases hg : st.g_initialized = false ∨ st.g_enabled = false
    · rw [onVmuDisplayUpdate_off st v b t hg]
    · obtain ⟨hi, he⟩ := gate_open hg
      by_cases hv : v < 0 ∨ v ≥ MAX_VMU_COUNT
      · rw [onVmuDisplayUpdate_outOfRange st v b t hv]
      · rw [onVmuDisplayUpdate_state st v b t hi he hv]
        have hne : v ≠ s := by
          simpa [Op.updatesDisplay, hi, he] using hop
        have hidx : slotIndex s hs ≠ slotIndex v hv := fun e =>
          hne ((slotIndex_eq_iff hs hv).1 e).symm
        simp [Function.update_noteq hidx]
  | onVmuConnectionChange v c =>
    simp only [Op.apply, (onVmuConnectionChange_frame st v c).2.1]
  | setEnabled e => rfl
  | registerUpdateCallback cb => rfl
  | isEnabled => rfl
  | getConnectedVmuCount => rfl
  | isVmuActive v => rfl
  | getVmuFramebuffer v => rfl
  | getVmuLastUpdate v => rfl
  | copyVmuFramebuffer v d => rfl
  | getVmuButtonState v => rfl

theorem runStores_updateStores (st : BridgeState) (v : Int) (b : Framebuffer) (t : Nat) :
    runStores st (updateStores st v b t) = (internal.onVmuDisplayUpdate st v b t).1 := by
  unfold runStores updateStores internal.onVmuDisplayUpdate
  split
  · rfl
  · split
    · rfl
    · simp only [List.foldl_cons, List.foldl_nil]
      cases st.g_updateCallback <;> rfl

theorem slotIndex_cast (s : Int) (h : ¬ (s < 0 ∨ s ≥ MAX_VMU_COUNT)) :
    (((slotIndex s h : Fin MAX_VMU_COUNT) : Nat) : Int) = s := by
  unfold slotIndex
  simp only [MAX_VMU_COUNT] at h
  show ((s.toNat : Nat) : Int) = s
  omega

theorem foldl_count {α : Type} (p : α → Bool) (l : List α) (n : Int) :
    l.foldl (fun count i => if p i then count + 1 else count) n = n + (l.countP p : Nat) := by
  induction l generalizing n with
  | nil => simp
  | cons a l ih =>
    rw [List.foldl_cons, ih, List.countP_cons]
    cases p a
    · simp
    · simp; omega

theorem countP_finRange (p : Fin MAX_VMU_COUNT → Bool) :
    (List.finRange MAX_VMU_COUNT).countP p
      = (Finset.univ.filter (fun i => p i = true)).card := by
  rw [List.countP_eq_length_filter,
    ← List.toFinset_card_of_nodup ((List.nodup_finRange MAX_VMU_COUNT).filter _)]
  congr 1
  ext i
  simp

theorem getConnectedVmuCount_eq_card (st : BridgeState) :
    getConnectedVmuCount st = ((connectedSlots st).card : Int) := by
  unfold getConnectedVmuCount connectedSlots
  rw [foldl_count (fun i => st.g_connected i), countP_finRange]
  simp

theorem slot_eq_of_fields {st st' : BridgeState} {j : Fin MAX_VMU_COUNT}
    (hc : st'.g_connected j = st.g_connected j) (hd : st'.g_dirty j = st.g_dirty j)
    (hb : st'.g_buttonState j = st.g_buttonState j)
    (ht : st'.g_lastUpdate j = st.g_lastUpdate j)
    (hm : st'.g_framebufferCopy j = st.g_framebufferCopy j) :
    st'.slot j = st.slot j := by
  unfold BridgeState.slot
  rw [hc, hd, hb, ht, hm]

theorem slotIndex_ofFin (i : Fin MAX_VMU_COUNT) (h : ¬ (((i : Nat) : Int) < 0 ∨ ((i : Nat) : Int) ≥ MAX_VMU_COUNT)) :
    slotIndex ((i : Nat) : Int) h = i := by
  apply Fin.ext
  show (((i : Nat) : Int)).toNat = (i : Nat)
  simp

theorem guard_false_ofFin (i : Fin MAX_VMU_COUNT) :
    ¬ (((i : Nat) : Int) < 0 ∨ ((i : Nat) : Int) ≥ MAX_VMU_COUNT) := by
  have := i.isLt
  simp only [MAX_VMU_COUNT] at this ⊢
  omega

theorem run_cons (st : BridgeState) (op : Op) (ops : List Op) :
    run st (op :: ops) = run (op.apply st) ops := rfl

theorem run_invariant (P : BridgeState → Prop) (Q : Op → Prop)
    (step : ∀ st op, P st → Q op → P (op.apply st)) (ops : List Op) :
    ∀ st, P st → (∀ op ∈ ops, Q op) → P (run st ops) := by
  induction ops with
  | nil => intro st hst _; exact hst
  | cons op ops ih =>
    intro st hst hq
    rw [run_cons]
    exact ih _ (step st op hst (hq op (List.mem_cons_self _ _)))
      (fun o ho => hq o (List.mem_cons_of_mem _ ho))

theorem apply_mirrorBlankWhenDisconnected (st : BridgeState) (op : Op)
    (hinv : mirrorBlankWhenDisconnected st) : mirrorBlankWhenDisconnected (op.apply st) := by
  cases op with
  | init =>
    simp only [Op.apply]
    cases hi : st.g_initialized
    · rw [init_fresh st hi]; intro i _; rfl
    · rw [init_running st hi]; exact hinv
  | term =>
    intro i hc
    simp only [Op.apply, (term_frame st).1, (term_frame st).2.2.2.2] at hc ⊢
    exact hinv i hc
  | isVmuDisplayDirty v =>
    intro i hc
    simp only [Op.apply, (isVmuDisplayDirty_frame st v).1,
      (isVmuDisplayDirty_frame st v).2.2.2.1] at hc ⊢
    exact hinv i hc
  | sendVmuButtonState v button pressed =>
    intro i hc
    simp only [Op.apply, (sendVmuButtonState_frame st v button pressed).1,
      (sendVmuButtonState_frame st v button pressed).2.2.2.1] at hc ⊢
    exact hinv i hc
  | onVmuDisplayUpdate v b t =>
    simp only [Op.apply]
    by_cases hg : st.g_initialized = false ∨ st.g_enabled = false
    · rw [onVmuDisplayUpdate_off st v b t hg]; exact hinv
    · obtain ⟨hi, he⟩ := gate_open hg
      by_cases hv : v < 0 ∨ v ≥ MAX_VMU_COUNT
      · rw [onVmuDisplayUpdate_outOfRange st v b t hv]; exact hinv
      · rw [onVmuDisplayUpdate_state st v b t hi he hv]
        intro i hc
        by_cases hj : i = slotIndex v hv
        · subst hj; simp at hc
        · simp only [Function.update_noteq hj] at hc ⊢
          exact hinv i hc
  | onVmuConnectionChange v c =>
    simp only [Op.apply]
    cases hi : st.g_initialized
    · rw [onVmuConnectionChange_off st v c hi]; exact hinv
    · by_cases hv : v < 0 ∨ v ≥ MAX_VMU_COUNT
      · rw [onVmuConnectionChange_outOfRange st v c hv]; exact hinv
      · rw [onVmuConnectionChange_inRange st v c hi hv]
        intro i hc
        by_cases hj : i = slotIndex v hv
        · subst hj
          cases c
          · simp; rfl
          · simp at hc
        · cases c
          · simp only [Function.update_noteq hj, Bool.false_eq_true, if_false] at hc ⊢
            exact hinv i hc
          · simp only [Function.update_noteq hj, if_true] at hc ⊢
            exact hinv i hc
  | setEnabled e => exact hinv
  | registerUpdateCallback cb => exact hinv
  | isEnabled => exact hinv
  | getConnectedVmuCount => exact hinv
  | isVmuActive v => exact hinv
  | getVmuFramebuffer v => exact hinv
  | getVmuLastUpdate v => exact hinv
  | copyVmuFramebuffer v d => exact hinv
  | getVmuButtonState v => exact hinv

theorem apply_mirrorBlankOrSolid (k : Nat) (st : BridgeState) (op : Op)
    (hinv : mirrorBlankOrSolid k st) (hsrc : op.solidSource k) :
    mirrorBlankOrSolid k (op.apply st) := by
  cases op with
  | init =>
    simp only [Op.apply]
    cases hi : st.g_initialized
    · rw [init_fresh st hi]; intro i; exact Or.inl rfl
    · rw [init_running st hi]; exact hinv
  | term =>
    intro i
    simp only [Op.apply, (term_frame st).2.2.2.2]
    exact hinv i
  | isVmuDisplayDirty v =>
    intro i
    simp only [Op.apply, (isVmuDisplayDirty_frame st v).2.2.2.1]
    exact hinv i
  | sendVmuButtonState v button pressed =>
    intro i
    simp only [Op.apply, (sendVmuButtonState_frame st v button pressed).2.2.2.1]
    exact hinv i
  | onVmuDisplayUpdate v b t =>
    simp only [Op.apply]
    by_cases hg : st.g_initialized = false ∨ st.g_enabled = false
    · rw [onVmuDisplayUpdate_off st v b t hg]; exact hinv
    · obtain ⟨hi, he⟩ := gate_open hg
      by_cases hv : v < 0 ∨ v ≥ MAX_VMU_COUNT
      · rw [onVmuDisplayUpdate_outOfRange st v b t hv]; exact hinv
      · rw [onVmuDisplayUpdate_state st v b t hi he hv]
        intro i
        by_cases hj : i = slotIndex v hv
        · subst hj
          right
          simpa using hsrc
        · simp only [Function.update_noteq hj]
          exact hinv i
  | onVmuConnectionChange v c =>
    simp only [Op.apply]
    cases hi : st.g_initialized
    · rw [onVmuConnectionChange_off st v c hi]; exact hinv
    · by_cases hv : v < 0 ∨ v ≥ MAX_VMU_COUNT
      · rw [onVmuConnectionChange_outOfRange st v c hv]; exact hinv
      · rw [onVmuConnectionChange_inRange st v c hi hv]
        intro i
        cases c
        · by_cases hj : i = slotIndex v hv
          · subst hj; left; simp; rfl
          · simp only [Function.update_noteq hj, Bool.false_eq_true, if_false]
            exact hinv i
        · simp only [if_true]
          exact hinv i
  | setEnabled e => exact hinv
  | registerUpdateCallback cb => exact hinv
  | isEnabled => exact hinv
  | getConnectedVmuCount => exact hinv
  | isVmuActive v => exact hinv
  | getVmuFramebuffer v => exact hinv
  | getVmuLastUpdate v => exact hinv
  | copyVmuFramebuffer v d => exact hinv
  | getVmuButtonState v => exact hinv

theorem copyVmuFramebuffer_true (osd : Osd) (st : BridgeState) (s : Int)
    (dest : Option Framebuffer) (r : Framebuffer)
    (hcopy : copyVmuFramebuffer osd st s dest = (true, some r)) :
    ∃ i, r = st.g_framebufferCopy i := by
  unfold copyVmuFramebuffer at hcopy
  split at hcopy
  · simp at hcopy
  · rename_i h
    split at hcopy
    · simp at hcopy
    · split at hcopy
      · simp at hcopy
      · exact ⟨slotIndex s h, by simpa using hcopy.symm⟩

/-! ## Properties of the operations -/

/-- C1: in an initialised and enabled bridge, for an identifier `s` in
`[0, 8)`, a buffer `b` and a timestamp `t`, after
`onVmuDisplayUpdate(s, b, t)` the call `isVmuActive(s)` returns true, the first
`isVmuDisplayDirty(s)` returns true, the second returns false,
`getVmuLastUpdate(s)` returns `t`, and `copyVmuFramebuffer(s, dest)` returns
true and leaves `b` in the destination. -/
theorem display_update_then_read (osd : Osd) (st : BridgeState) (s : Int)
    (b : Framebuffer) (t : Nat) (d : Framebuffer)
    (hinit : st.g_initialized = true) (hen : st.g_enabled = true)
    (h0 : 0 ≤ s) (h8 : s < 8) :
    isVmuActive osd (internal.onVmuDisplayUpdate st s b t).1 s = true
    ∧ (isVmuDisplayDirty (internal.onVmuDisplayUpdate st s b t).1 s).1 = true
    ∧ (isVmuDisplayDirty
        (isVmuDisplayDirty (internal.onVmuDisplayUpdate st s b t).1 s).2 s).1 = false
    ∧ getVmuLastUpdate
        (isVmuDisplayDirty
          (isVmuDisplayDirty (internal.onVmuDisplayUpdate st s b t).1 s).2 s).2 s = t
    ∧ copyVmuFramebuffer osd
        (isVmuDisplayDirty
          (isVmuDisplayDirty (internal.onVmuDisplayUpdate st s b t).1 s).2 s).2 s (some d)
        = (true, some b) := by
  have h := guard_false h0 h8
  rw [onVmuDisplayUpdate_state st s b t hinit hen h]
  simp [isVmuActive_inRange _ _ _ h, isVmuDisplayDirty_inRange _ _ h,
    getVmuLastUpdate_inRange _ _ h, copyVmuFramebuffer_inRange _ _ _ _ h]

/-- C1, the scenario of the specification: slot 0, the all-white buffer and
timestamp 100, after `init` and `onVmuConnectionChange(0, true)`. -/
theorem display_update_then_read_witness :
    (scenarioState.g_initialized = true ∧ scenarioState.g_enabled = true
      ∧ (0 : Int) ≤ 0 ∧ (0 : Int) < 8)
    ∧ isVmuActive osdIdle (internal.onVmuDisplayUpdate scenarioState 0 whiteBuffer 100).1 0
        = true
    ∧ (isVmuDisplayDirty
        (internal.onVmuDisplayUpdate scenarioState 0 whiteBuffer 100).1 0).1 = true
    ∧ (isVmuDisplayDirty
        (isVmuDisplayDirty
          (internal.onVmuDisplayUpdate scenarioState 0 whiteBuffer 100).1 0).2 0).1 = false
    ∧ getVmuLastUpdate
        (isVmuDisplayDirty
          (isVmuDisplayDirty
            (internal.onVmuDisplayUpdate scenarioState 0 whiteBuffer 100).1 0).2 0).2 0 = 100
    ∧ copyVmuFramebuffer osdIdle
        (isVmuDisplayDirty
          (isVmuDisplayDirty
            (internal.onVmuDisplayUpdate scenarioState 0 whiteBuffer 100).1 0).2 0).2 0
        (some zeroBuffer) = (true, some whiteBuffer) :=
  ⟨⟨rfl, rfl, by decide, by decide⟩,
    display_update_then_read osdIdle scenarioState 0 whiteBuffer 100 zeroBuffer rfl rfl
      (by decide) (by decide)⟩

/-- C2: for an identifier `s` outside `[0, 8)` the range guard of the source
holds, so every accessor returns its neutral value (`isVmuActive` false,
`isVmuDisplayDirty` false, `getVmuFramebuffer` null, `getVmuLastUpdate` 0,
`copyVmuFramebuffer` false, `getVmuButtonState` 0), and every operation given
`s` leaves the whole bridge state and the destination as they were and calls
no callback.  In this embedding an array is indexed only through `slotIndex`,
which needs the guard to be false. -/
theorem out_of_range_neutral (osd : Osd) (st : BridgeState) (s : Int)
    (dest : Option Framebuffer) (button : VmuButton) (pressed : Bool) (b : Framebuffer)
    (t : Nat) (connected : Bool) (op : Op)
    (hs : s < 0 ∨ 8 ≤ s) (hop : op.slot? = some s) :
    (s < 0 ∨ s ≥ MAX_VMU_COUNT)
    ∧ isVmuActive osd st s = false
    ∧ isVmuDisplayDirty st s = (false, st)
    ∧ getVmuFramebuffer osd st s = none
    ∧ getVmuLastUpdate st s = 0
    ∧ copyVmuFramebuffer osd st s dest = (false, dest)
    ∧ getVmuButtonState st s = 0
    ∧ sendVmuButtonState st s button pressed = st
    ∧ internal.onVmuDisplayUpdate st s b t = (st, [])
    ∧ internal.onVmuConnectionChange st s connected = st
    ∧ op.apply st = st
    ∧ op.calls st = [] := by
  have g : s < 0 ∨ s ≥ MAX_VMU_COUNT :=
    hs.elim guard_true_of_neg guard_true_of_ge
  have h1 : isVmuDisplayDirty st s = (false, st) := by
    unfold isVmuDisplayDirty; rw [dif_pos g]
  have h2 : sendVmuButtonState st s button pressed = st := by
    unfold sendVmuButtonState; rw [dif_pos g]
  have h3 : internal.onVmuDisplayUpdate st s b t = (st, []) := by
    unfold internal.onVmuDisplayUpdate; rw [dif_pos g]; simp
  have h4 : internal.onVmuConnectionChange st s connected = st := by
    unfold internal.onVmuConnectionChange; rw [dif_pos g]; simp
  refine ⟨g, ?_, h1, ?_, ?_, ?_, ?_, h2, h3, h4, ?_, ?_⟩
  · unfold isVmuActive; rw [dif_pos g]
  · unfold getVmuFramebuffer; rw [dif_pos g]
  · unfold getVmuLastUpdate; rw [dif_pos g]
  · unfold copyVmuFramebuffer; rw [dif_pos g]
  · unfold getVmuButtonState; rw [dif_pos g]
  · cases op <;> simp only [Op.slot?, Option.some.injEq] at hop <;>
      first
        | rfl
        | (subst hop
           simp only [Op.apply]
           first
             | (unfold isVmuDisplayDirty; rw [dif_pos g])
             | (unfold sendVmuButtonState; rw [dif_pos g])
             | (unfold internal.onVmuDisplayUpdate; rw [dif_pos g]; simp)
             | (unfold internal.onVmuConnectionChange; rw [dif_pos g]; simp))
        | exact absurd hop (by simp)
  · cases op <;> simp only [Op.slot?, Option.some.injEq] at hop <;>
      first
        | rfl
        | (subst hop
           simp only [Op.calls]
           unfold internal.onVmuDisplayUpdate; rw [dif_pos g]; simp)

/-- C2 at the identifier 8, the first one past the range, in the state of the
scenario, for a display update with a registered callable. -/
theorem out_of_range_neutral_witness :
    ((8 : Int) < 0 ∨ (8 : Int) ≤ 8)
    ∧ (Op.onVmuDisplayUpdate 8 whiteBuffer 100).slot? = some 8
    ∧ isVmuActive osdIdle (registerUpdateCallback scenarioState (some 7)) 8 = false
    ∧ isVmuDisplayDirty (registerUpdateCallback scenarioState (some 7)) 8
        = (false, registerUpdateCallback scenarioState (some 7))
    ∧ getVmuFramebuffer osdIdle (registerUpdateCallback scenarioState (some 7)) 8 = none
    ∧ getVmuLastUpdate (registerUpdateCallback scenarioState (some 7)) 8 = 0
    ∧ copyVmuFramebuffer osdIdle (registerUpdateCallback scenarioState (some 7)) 8
        (some whiteBuffer) = (false, some whiteBuffer)
    ∧ getVmuButtonState (registerUpdateCallback scenarioState (some 7)) 8 = 0
    ∧ sendVmuButtonState (registerUpdateCallback scenarioState (some 7)) 8 VmuButton.A true
        = registerUpdateCallback scenarioState (some 7)
    ∧ internal.onVmuDisplayUpdate (registerUpdateCallback scenarioState (some 7)) 8
        whiteBuffer 100 = (registerUpdateCallback scenarioState (some 7), [])
    ∧ internal.onVmuConnectionChange (registerUpdateCallback scenarioState (some 7)) 8 false
        = registerUpdateCallback scenarioState (some 7)
    ∧ (Op.onVmuDisplayUpdate 8 whiteBuffer 100).apply
          (registerUpdateCallback scenarioState (some 7))
        = registerUpdateCallback scenarioState (some 7)
    ∧ (Op.onVmuDisplayUpdate 8 whiteBuffer 100).calls
          (registerUpdateCallback scenarioState (some 7)) = [] :=
  ⟨Or.inr (by decide), rfl,
    (out_of_range_neutral osdIdle (registerUpdateCallback scenarioState (some 7)) 8
      (some whiteBuffer) VmuButton.A true whiteBuffer 100 false
      (Op.onVmuDisplayUpdate 8 whiteBuffer 100) (Or.inr (by decide)) rfl).2⟩

/-- C3: for an identifier `s` in `[0, 8)`, `isVmuDisplayDirty(s)` returns the
current value of the flag of slot `s` and clears it; and after any sequence of
calls in which no `onVmuDisplayUpdate` for `s` passes that guard, the next
`isVmuDisplayDirty(s)` returns false.  The sequence may hold any other call,
`init` included, which only clears flags. -/
theorem dirty_reported_once (st : BridgeState) (s : Int) (ops : List Op)
    (h0 : 0 ≤ s) (h8 : s < 8)
    (hno : noDisplayUpdate s (isVmuDisplayDirty st s).2 ops = true) :
    (isVmuDisplayDirty st s).1 = st.g_dirty (slotIndex s (guard_false h0 h8))
    ∧ (isVmuDisplayDirty st s).2
        = { st with
            g_dirty := Function.update st.g_dirty (slotIndex s (guard_false h0 h8)) false }
    ∧ (isVmuDisplayDirty (run (isVmuDisplayDirty st s).2 ops) s).1 = false := by
  have h := guard_false h0 h8
  refine ⟨by rw [isVmuDisplayDirty_inRange st s h], by rw [isVmuDisplayDirty_inRange st s h], ?_⟩
  rw [isVmuDisplayDirty_inRange _ s h]
  refine run_g_dirty s h ops _ ?_ hno
  rw [isVmuDisplayDirty_inRange st s h]
  simp

/-- C3 in the scenario: slot 0 is updated, polled (true), then `quietCalls`
run, and the next poll returns false. -/
theorem dirty_reported_once_witness :
    ((0 : Int) ≤ 0 ∧ (0 : Int) < 8
      ∧ noDisplayUpdate 0
          (isVmuDisplayDirty
            (internal.onVmuDisplayUpdate scenarioState 0 whiteBuffer 100).1 0).2
          quietCalls = true)
    ∧ (isVmuDisplayDirty (internal.onVmuDisplayUpdate scenarioState 0 whiteBuffer 100).1 0).1
        = true
    ∧ (isVmuDisplayDirty
        (run
          (isVmuDisplayDirty
            (internal.onVmuDisplayUpdate scenarioState 0 whiteBuffer 100).1 0).2
          quietCalls) 0).1 = false :=
  ⟨⟨by decide, by decide, rfl⟩, rfl,
    (dirty_reported_once (internal.onVmuDisplayUpdate scenarioState 0 whiteBuffer 100).1 0
      quietCalls (by decide) (by decide) rfl).2.2⟩

/-- C4: when the bridge is uninitialised or disabled, `onVmuDisplayUpdate` is
a no-op for every identifier, buffer and timestamp: the whole state (hence
every dirty flag, timestamp, connected flag, button mask and mirror buffer) is
as before and no callback is called; in particular right after
`setEnabled(false)`. -/
theorem display_update_dropped (st : BridgeState) (s : Int) (b : Framebuffer) (t : Nat)
    (h : st.g_initialized = false ∨ st.g_enabled = false) :
    internal.onVmuDisplayUpdate st s b t = (st, [])
    ∧ internal.onVmuDisplayUpdate (setEnabled st false) s b t = (setEnabled st false, []) :=
  ⟨onVmuDisplayUpdate_off st s b t h,
    onVmuDisplayUpdate_off (setEnabled st false) s b t (Or.inr rfl)⟩

/-- C4 in the scenario, after `setEnabled(false)`, with a registered
callable. -/
theorem display_update_dropped_witness :
    ((setEnabled (registerUpdateCallback scenarioState (some 7)) false).g_initialized = false
      ∨ (setEnabled (registerUpdateCallback scenarioState (some 7)) false).g_enabled = false)
    ∧ internal.onVmuDisplayUpdate
        (setEnabled (registerUpdateCallback scenarioState (some 7)) false) 0 whiteBuffer 100
        = (setEnabled (registerUpdateCallback scenarioState (some 7)) false, []) :=
  ⟨Or.inr rfl,
    (display_update_dropped (setEnabled (registerUpdateCallback scenarioState (some 7)) false)
      0 whiteBuffer 100 (Or.inr rfl)).1⟩

/-- C5, as stated, fails: in `staleState` (reached from the start state by
`init`, `onVmuDisplayUpdate(0, white, 100)`, `term`) the bridge is not
initialised, so `onVmuConnectionChange(0, false)` returns at its first guard,
and `copyVmuFramebuffer(0, dest)` then returns true with the all-white
buffer. -/
theorem disconnect_blanks_mirror_counterexample :
    ¬ ((copyVmuFramebuffer osdIdle (internal.onVmuConnectionChange staleState 0 false) 0
          (some zeroBuffer)).1 = false
        ∨ ((copyVmuFramebuffer osdIdle (internal.onVmuConnectionChange staleState 0 false) 0
            (some zeroBuffer)).1 = true
          ∧ (copyVmuFramebuffer osdIdle (internal.onVmuConnectionChange staleState 0 false) 0
            (some zeroBuffer)).2 = some zeroBuffer)) := by
  have hr : copyVmuFramebuffer osdIdle (internal.onVmuConnectionChange staleState 0 false) 0
      (some zeroBuffer) = (true, some whiteBuffer) := rfl
  rw [hr]
  intro h
  rcases h with h | ⟨_, h⟩
  · exact Bool.noConfusion h
  · have hp := congrFun (Option.some.inj h) 0
    simp [whiteBuffer, zeroBuffer] at hp

/-- C5, amended: in an initialised bridge, for every identifier `s` and every
destination, after `onVmuConnectionChange(s, false)` the call
`copyVmuFramebuffer(s, dest)` either returns false or returns true with every
pixel of the destination equal to zero. -/
theorem disconnect_blanks_mirror (osd : Osd) (st : BridgeState) (s : Int)
    (dest : Option Framebuffer) (hinit : st.g_initialized = true) :
    (copyVmuFramebuffer osd (internal.onVmuConnectionChange st s false) s dest).1 = false
    ∨ ((copyVmuFramebuffer osd (internal.onVmuConnectionChange st s false) s dest).1 = true
      ∧ (copyVmuFramebuffer osd (internal.onVmuConnectionChange st s false) s dest).2
          = some zeroBuffer) := by
  by_cases h : s < 0 ∨ s ≥ MAX_VMU_COUNT
  · left; unfold copyVmuFramebuffer; rw [dif_pos h]
  · cases dest with
    | none => left; unfold copyVmuFramebuffer; rw [dif_neg h]
    | some d =>
      rw [copyVmuFramebuffer_inRange _ _ _ _ h, onVmuConnectionChange_false_inRange st s hinit h]
      split
      · right; exact ⟨rfl, by simp; rfl⟩
      · left; rfl

/-- C5, amended, in the scenario: slot 0 holds the all-white buffer, the
emulator side still reports it present, and after the disconnection the copy
succeeds with a blank buffer. -/
theorem disconnect_blanks_mirror_witness :
    updatedState.g_initialized = true
    ∧ ((copyVmuFramebuffer osdPresent (internal.onVmuConnectionChange updatedState 0 false) 0
          (some whiteBuffer)).1 = false
      ∨ ((copyVmuFramebuffer osdPresent (internal.onVmuConnectionChange updatedState 0 false) 0
            (some whiteBuffer)).1 = true
        ∧ (copyVmuFramebuffer osdPresent (internal.onVmuConnectionChange updatedState 0 false) 0
            (some whiteBuffer)).2 = some zeroBuffer)) :=
  ⟨rfl, disconnect_blanks_mirror osdPresent updatedState 0 (some whiteBuffer) rfl⟩

/-- C6: in an initialised and enabled bridge, for an identifier `s` in
`[0, 8)`: a registration replaces the one before it; after
`registerUpdateCallback(some f)`, `onVmuDisplayUpdate(s, b, t)` makes exactly
one call, of `f`, with the arguments `(s, b, t)`, and the state at that call
is the state the operation returns, in which the dirty flag of `s` is set and
the mirror of `s` is `b`; after `registerUpdateCallback(none)` it makes no
call. -/
theorem callback_dispatch (st : BridgeState) (s : Int) (b : Framebuffer) (t : Nat)
    (f : Nat) (cb0 : VmuUpdateCallback)
    (hinit : st.g_initialized = true) (hen : st.g_enabled = true)
    (h0 : 0 ≤ s) (h8 : s < 8) :
    registerUpdateCallback (registerUpdateCallback st cb0) (some f)
      = registerUpdateCallback st (some f)
    ∧ (internal.onVmuDisplayUpdate (registerUpdateCallback st (some f)) s b t).2
        = [{ target := f, vmu_id := s, framebuffer := b, timestamp := t,
             atCall := (internal.onVmuDisplayUpdate (registerUpdateCallback st (some f)) s b t).1 }]
    ∧ (internal.onVmuDisplayUpdate (registerUpdateCallback st (some f)) s b t).1.g_dirty
        (slotIndex s (guard_false h0 h8)) = true
    ∧ (internal.onVmuDisplayUpdate (registerUpdateCallback st (some f)) s b t).1.g_framebufferCopy
        (slotIndex s (guard_false h0 h8)) = b
    ∧ (internal.onVmuDisplayUpdate (registerUpdateCallback st none) s b t).2 = [] := by
  have h := guard_false h0 h8
  refine ⟨rfl, ?_, ?_, ?_, ?_⟩
  · unfold internal.onVmuDisplayUpdate
    rw [dif_neg h]
    simp [registerUpdateCallback, hinit, hen]
  · rw [onVmuDisplayUpdate_state (registerUpdateCallback st (some f)) s b t hinit hen h]
    simp
  · rw [onVmuDisplayUpdate_state (registerUpdateCallback st (some f)) s b t hinit hen h]
    simp
  · unfold internal.onVmuDisplayUpdate
    rw [dif_neg h]
    simp [registerUpdateCallback, hinit, hen]

/-- C6 in the scenario: callable 7 replaces callable 3 and is called once with
`(0, white, 100)`. -/
theorem callback_dispatch_witness :
    (scenarioState.g_initialized = true ∧ scenarioState.g_enabled = true
      ∧ (0 : Int) ≤ 0 ∧ (0 : Int) < 8)
    ∧ (internal.onVmuDisplayUpdate
        (registerUpdateCallback (registerUpdateCallback scenarioState (some 3)) (some 7))
        0 whiteBuffer 100).2
        = [{ target := 7, vmu_id := 0, framebuffer := whiteBuffer, timestamp := 100,
             atCall :=
              (internal.onVmuDisplayUpdate (registerUpdateCallback scenarioState (some 7))
                0 whiteBuffer 100).1 }]
    ∧ (internal.onVmuDisplayUpdate (registerUpdateCallback scenarioState none)
        0 whiteBuffer 100).2 = [] :=
  ⟨⟨rfl, rfl, by decide, by decide⟩,
    (callback_dispatch scenarioState 0 whiteBuffer 100 7 (some 3) rfl rfl
      (by decide) (by decide)).1 ▸
    (callback_dispatch scenarioState 0 whiteBuffer 100 7 (some 3) rfl rfl
      (by decide) (by decide)).2.1,
    (callback_dispatch scenarioState 0 whiteBuffer 100 7 (some 3) rfl rfl
      (by decide) (by decide)).2.2.2.2⟩

/-- C7: `init` and `term` are idempotent.  For every state, `init` after
`init` gives the state of the single `init`, and `term` after `term` the state
of the single `term`; `init` in a state with `g_initialized` true (whatever the
slots hold by then) changes nothing, and `term` in a state with
`g_initialized` false changes nothing. -/
theorem init_term_idempotent (st running stopped : BridgeState)
    (hr : running.g_initialized = true) (hs : stopped.g_initialized = false) :
    init (init st) = init st
    ∧ term (term st) = term st
    ∧ init running = running
    ∧ term stopped = stopped := by
  refine ⟨?_, ?_, init_running running hr, term_stopped stopped hs⟩
  · cases h : st.g_initialized
    · rw [init_fresh st h]; exact init_running _ rfl
    · rw [init_running st h, init_running st h]
  · cases h : st.g_initialized
    · rw [term_stopped st h, term_stopped st h]
    · rw [term_running st h]; exact term_stopped _ rfl

/-- C7 in the scenario: a second `init` after slot 0 was updated leaves the
update in place, and `term` on the start state leaves it as it is. -/
theorem init_term_idempotent_witness :
    (updatedState.g_initialized = true ∧ startup.g_initialized = false)
    ∧ init (init startup) = init startup
    ∧ term (term startup) = term startup
    ∧ init updatedState = updatedState
    ∧ term startup = startup :=
  ⟨⟨rfl, rfl⟩, init_term_idempotent startup updatedState startup rfl rfl⟩

/-- C8: from a state with `g_initialized` false, `init` gives a state with
`g_initialized` and `g_enabled` true (so `isEnabled` is true, whatever
`setEnabled` did before) in which every slot `i` has its dirty flag false, its
connected flag false, its button mask 0, its timestamp 0 and every mirror
pixel `p` equal to 0. -/
theorem init_clears (st : BridgeState) (i : Fin MAX_VMU_COUNT) (p : Fin VMU_LCD_PIXELS)
    (h : st.g_initialized = false) :
    (init st).g_initialized = true
    ∧ (init st).g_enabled = true
    ∧ isEnabled (init st) = true
    ∧ isEnabled (init (setEnabled st false)) = true
    ∧ (init st).g_dirty i = false
    ∧ (init st).g_connected i = false
    ∧ (init st).g_buttonState i = 0
    ∧ (init st).g_lastUpdate i = 0
    ∧ (init st).g_framebufferCopy i p = 0 := by
  have h' : (setEnabled st false).g_initialized = false := h
  rw [init_fresh st h, init_fresh _ h']
  simp [isEnabled]

/-- C8 on `staleState`, a terminated bridge whose slot 0 still holds an
image: after `init`, slot 0 and its pixel 0 are cleared. -/
theorem init_clears_witness :
    staleState.g_initialized = false
    ∧ (init staleState).g_initialized = true
    ∧ (init staleState).g_enabled = true
    ∧ isEnabled (init staleState) = true
    ∧ isEnabled (init (setEnabled staleState false)) = true
    ∧ (init staleState).g_dirty 0 = false
    ∧ (init staleState).g_connected 0 = false
    ∧ (init staleState).g_buttonState 0 = 0
    ∧ (init staleState).g_lastUpdate 0 = 0
    ∧ (init staleState).g_framebufferCopy 0 0 = 0 :=
  ⟨rfl, init_clears staleState 0 0 rfl⟩

/-- C9: from a state with `g_initialized` true, `term` sets `g_initialized`
and `g_enabled` to false and empties the callback, so that a later `init`
followed by `onVmuDisplayUpdate` calls nothing, and it leaves every connected
flag, dirty flag, button mask, timestamp and mirror buffer as it was. -/
theorem term_keeps_slots (st : BridgeState) (s : Int) (b : Framebuffer) (t : Nat)
    (h : st.g_initialized = true) :
    (term st).g_initialized = false
    ∧ (term st).g_enabled = false
    ∧ (term st).g_updateCallback = none
    ∧ (internal.onVmuDisplayUpdate (init (term st)) s b t).2 = []
    ∧ (term st).g_connected = st.g_connected
    ∧ (term st).g_dirty = st.g_dirty
    ∧ (term st).g_buttonState = st.g_buttonState
    ∧ (term st).g_lastUpdate = st.g_lastUpdate
    ∧ (term st).g_framebufferCopy = st.g_framebufferCopy := by
  rw [term_running st h]
  refine ⟨rfl, rfl, rfl, ?_, rfl, rfl, rfl, rfl, rfl⟩
  rw [init_fresh _ rfl]
  unfold internal.onVmuDisplayUpdate
  by_cases hg : s < 0 ∨ s ≥ MAX_VMU_COUNT
  · rw [dif_pos hg]; simp
  · rw [dif_neg hg]; simp

/-- C9 in the scenario with callable 7 registered and slot 0 updated: `term`
keeps the slots, and after a new `init` an update of slot 0 calls nothing. -/
theorem term_keeps_slots_witness :
    (registerUpdateCallback updatedState (some 7)).g_initialized = true
    ∧ (term (registerUpdateCallback updatedState (some 7))).g_initialized = false
    ∧ (term (registerUpdateCallback updatedState (some 7))).g_enabled = false
    ∧ (term (registerUpdateCallback updatedState (some 7))).g_updateCallback = none
    ∧ (internal.onVmuDisplayUpdate (init (term (registerUpdateCallback updatedState (some 7))))
        0 whiteBuffer 100).2 = []
    ∧ (term (registerUpdateCallback updatedState (some 7))).g_connected
        = (registerUpdateCallback updatedState (some 7)).g_connected
    ∧ (term (registerUpdateCallback updatedState (some 7))).g_dirty
        = (registerUpdateCallback updatedState (some 7)).g_dirty
    ∧ (term (registerUpdateCallback updatedState (some 7))).g_buttonState
        = (registerUpdateCallback updatedState (some 7)).g_buttonState
    ∧ (term (registerUpdateCallback updatedState (some 7))).g_lastUpdate
        = (registerUpdateCallback updatedState (some 7)).g_lastUpdate
    ∧ (term (registerUpdateCallback updatedState (some 7))).g_framebufferCopy
        = (registerUpdateCallback updatedState (some 7)).g_framebufferCopy :=
  ⟨rfl, term_keeps_slots (registerUpdateCallback updatedState (some 7)) 0 whiteBuffer 100 rfl⟩

/-- C10: for an identifier `s` in `[0, 8)` and a non-null destination,
`copyVmuFramebuffer` returns true exactly when the connected flag of `s` or
the status `vmu_lcd_status` of `s` is true, that is when `isVmuActive(s)` is
true, and then the destination holds the mirror buffer of `s`; for every
identifier `v` and every destination, a false result leaves the destination
as it was, a null destination or an identifier outside `[0, 8)` gives false,
and the bridge state is as before. -/
theorem copy_iff_active (osd : Osd) (st : BridgeState) (s : Int) (d : Framebuffer)
    (v : Int) (dest : Option Framebuffer) (h0 : 0 ≤ s) (h8 : s < 8) :
    ((copyVmuFramebuffer osd st s (some d)).1 = true
      ↔ (st.g_connected (slotIndex s (guard_false h0 h8)) = true
          ∨ osd.vmu_lcd_status (slotIndex s (guard_false h0 h8)) = true))
    ∧ ((copyVmuFramebuffer osd st s (some d)).1 = isVmuActive osd st s)
    ∧ ((copyVmuFramebuffer osd st s (some d)).1 = true →
        (copyVmuFramebuffer osd st s (some d)).2
          = some (st.g_framebufferCopy (slotIndex s (guard_false h0 h8))))
    ∧ ((copyVmuFramebuffer osd st v dest).1 = false →
        (copyVmuFramebuffer osd st v dest).2 = dest)
    ∧ (copyVmuFramebuffer osd st v none).1 = false
    ∧ ((v < 0 ∨ 8 ≤ v) → (copyVmuFramebuffer osd st v dest).1 = false)
    ∧ (Op.copyVmuFramebuffer v dest).apply st = st := by
  have h := guard_false h0 h8
  refine ⟨?_, ?_, ?_, ?_, ?_, ?_, rfl⟩
  · rw [copyVmuFramebuffer_inRange _ _ _ _ h, isVmuActive_inRange _ _ _ h]
    cases st.g_connected (slotIndex s h) <;> cases osd.vmu_lcd_status (slotIndex s h) <;> simp
  · rw [copyVmuFramebuffer_inRange _ _ _ _ h]
    cases isVmuActive osd st s <;> simp
  · rw [copyVmuFramebuffer_inRange _ _ _ _ h]
    cases isVmuActive osd st s <;> simp
  · unfold copyVmuFramebuffer
    split
    · intro _; rfl
    · split
      · intro _; rfl
      · split
        · intro _; rfl
        · intro hc; exact absurd hc (by simp)
  · unfold copyVmuFramebuffer
    split <;> rfl
  · intro hv
    have g : v < 0 ∨ v ≥ MAX_VMU_COUNT := hv.elim guard_true_of_neg guard_true_of_ge
    unfold copyVmuFramebuffer
    rw [dif_pos g]

/-- C10 in the scenario after the update of slot 0, with no slot reported by
the emulator side: the copy of slot 0 succeeds and gives the all-white
mirror, the copy of slot 1 fails and leaves the destination as it was. -/
theorem copy_iff_active_witness :
    ((0 : Int) ≤ 0 ∧ (0 : Int) < 8)
    ∧ copyVmuFramebuffer osdIdle updatedState 0 (some zeroBuffer) = (true, some whiteBuffer)
    ∧ ((copyVmuFramebuffer osdIdle updatedState 1 (some whiteBuffer)).1 = false →
        (copyVmuFramebuffer osdIdle updatedState 1 (some whiteBuffer)).2 = some whiteBuffer)
    ∧ (copyVmuFramebuffer osdIdle updatedState 1 (some whiteBuffer)).1 = false
    ∧ (Op.copyVmuFramebuffer 1 (some whiteBuffer)).apply updatedState = updatedState :=
  ⟨⟨by decide, by decide⟩, rfl,
    (copy_iff_active osdIdle updatedState 0 zeroBuffer 1 (some whiteBuffer)
      (by decide) (by decide)).2.2.2.1,
    rfl,
    (copy_iff_active osdIdle updatedState 0 zeroBuffer 1 (some whiteBuffer)
      (by decide) (by decide)).2.2.2.2.2.2⟩

/-- C11: for every bridge state (whatever `g_initialized` and `g_enabled`
are), every identifier `s` in `[0, 8)` whose stored mask is a `u8`, and every
button: after `sendVmuButtonState(s, button, true)` the mask of `s` is the old
mask OR the button's mask, after `sendVmuButtonState(s, button, false)` it is
the old mask AND NOT the button's mask (bit `k` of the result is bit `k` of
the old mask and not bit `k` of the button's mask, for every `k`); the mask of
every other identifier `v` is as before, and nothing else in the state
changes. -/
theorem button_state_set_clear (st : BridgeState) (s v : Int) (button : VmuButton)
    (pressed : Bool) (k : Nat) (h0 : 0 ≤ s) (h8 : s < 8)
    (hu8 : st.g_buttonState (slotIndex s (guard_false h0 h8)) < 256) (hv : v ≠ s) :
    getVmuButtonState (sendVmuButtonState st s button true) s
      = getVmuButtonState st s ||| button.toU8
    ∧ (getVmuButtonState (sendVmuButtonState st s button true) s).testBit k
      = ((getVmuButtonState st s).testBit k || button.toU8.testBit k)
    ∧ (getVmuButtonState (sendVmuButtonState st s button false) s).testBit k
      = ((getVmuButtonState st s).testBit k && !button.toU8.testBit k)
    ∧ getVmuButtonState (sendVmuButtonState st s button pressed) s < 256
    ∧ getVmuButtonState (sendVmuButtonState st s button pressed) v = getVmuButtonState st v
    ∧ sendVmuButtonState st s button pressed
      = { st with
          g_buttonState := Function.update st.g_buttonState (slotIndex s (guard_false h0 h8))
            (getVmuButtonState (sendVmuButtonState st s button pressed) s) } := by
  have h := guard_false h0 h8
  have hset : ∀ p, getVmuButtonState (sendVmuButtonState st s button p) s
      = if p then st.g_buttonState (slotIndex s h) ||| button.toU8
        else st.g_buttonState (slotIndex s h) &&& notU8 button.toU8 := by
    intro p
    rw [getVmuButtonState_inRange _ s h, sendVmuButtonState_inRange st s button p h]
    simp
  have hm := toU8_lt button
  refine ⟨?_, ?_, ?_, ?_, ?_, ?_⟩
  · rw [hset true, getVmuButtonState_inRange st s h]; rfl
  · rw [hset true, getVmuButtonState_inRange st s h]; simp
  · rw [hset false, getVmuButtonState_inRange st s h]
    simp only [Bool.false_eq_true, if_false, Nat.testBit_and, testBit_notU8 _ k hm]
    by_cases hk : k < 8
    · simp [hk]
    · simp [hk, testBit_u8_high _ k hu8 hk]
  · rw [hset pressed]
    cases pressed
    · exact lt_of_le_of_lt Nat.and_le_left hu8
    · exact Nat.or_lt_two_pow (n := 8) hu8 hm
  · by_cases g : v < 0 ∨ v ≥ MAX_VMU_COUNT
    · unfold getVmuButtonState; rw [dif_pos g, dif_pos g]
    · rw [getVmuButtonState_inRange _ v g, getVmuButtonState_inRange _ v g,
        sendVmuButtonState_inRange st s button pressed h]
      have hidx : slotIndex v g ≠ slotIndex s h := fun e => hv ((slotIndex_eq_iff g h).1 e)
      simp [Function.update_noteq hidx]
  · rw [hset pressed, sendVmuButtonState_inRange st s button pressed h]

/-- C11 on `pressedState`, where the mask of slot 0 is `0x01`: pressing A
gives `0x01 ||| 0x40`, bit 6 is set by the press of A and clear after the
release of A, and slot 1 keeps its mask. -/
theorem button_state_set_clear_witness :
    ((0 : Int) ≤ 0 ∧ (0 : Int) < 8
      ∧ pressedState.g_buttonState (slotIndex 0 (guard_false (by decide) (by decide))) < 256
      ∧ (1 : Int) ≠ 0)
    ∧ getVmuButtonState (sendVmuButtonState pressedState 0 VmuButton.A true) 0
      = getVmuButtonState pressedState 0 ||| VmuButton.A.toU8
    ∧ (getVmuButtonState (sendVmuButtonState pressedState 0 VmuButton.A true) 0).testBit 6
      = ((getVmuButtonState pressedState 0).testBit 6 || VmuButton.A.toU8.testBit 6)
    ∧ (getVmuButtonState (sendVmuButtonState pressedState 0 VmuButton.A false) 0).testBit 6
      = ((getVmuButtonState pressedState 0).testBit 6 && !VmuButton.A.toU8.testBit 6)
    ∧ getVmuButtonState (sendVmuButtonState pressedState 0 VmuButton.A true) 0 < 256
    ∧ getVmuButtonState (sendVmuButtonState pressedState 0 VmuButton.A true) 1
      = getVmuButtonState pressedState 1
    ∧ sendVmuButtonState pressedState 0 VmuButton.A true
      = { pressedState with
          g_buttonState :=
            Function.update pressedState.g_buttonState
              (slotIndex 0 (guard_false (by decide) (by decide)))
              (getVmuButtonState (sendVmuButtonState pressedState 0 VmuButton.A true) 0) } :=
  ⟨⟨by decide, by decide, by decide, by decide⟩,
    button_state_set_clear pressedState 0 1 VmuButton.A true 6 (by decide) (by decide)
      (by decide) (by decide)⟩

/-- C12, as stated, fails twice.  In `staleState` (after `init`, an update of
slot 0 with timestamp 100, `term`) the call `init` takes the timestamp of
slot 0 from 100 to 0: it decreases, and it changes although the call is not a
display update.  In `updatedState` the call
`onVmuDisplayUpdate(0, white, 50)` takes it from 100 to 50. -/
theorem timestamp_monotone_counterexample :
    ¬ (getVmuLastUpdate staleState 0 ≤ getVmuLastUpdate (Op.init.apply staleState) 0)
    ∧ getVmuLastUpdate (Op.init.apply staleState) 0 ≠ getVmuLastUpdate staleState 0
    ∧ ¬ (getVmuLastUpdate updatedState 0
          ≤ getVmuLastUpdate ((Op.onVmuDisplayUpdate 0 whiteBuffer 50).apply updatedState) 0) := by
  have h1 : getVmuLastUpdate staleState 0 = 100 := rfl
  have h2 : getVmuLastUpdate (Op.init.apply staleState) 0 = 0 := rfl
  have h3 : getVmuLastUpdate updatedState 0 = 100 := rfl
  have h4 : getVmuLastUpdate
      ((Op.onVmuDisplayUpdate 0 whiteBuffer 50).apply updatedState) 0 = 50 := rfl
  rw [h1, h2, h3, h4]
  decide

/-- C12, amended: for an identifier `s` in `[0, 8)`, a call that is neither a
display update for `s` passing the guard on `g_initialized` and `g_enabled`
nor an `init` of an uninitialised bridge leaves `getVmuLastUpdate(s)` as it
was; a display update for `s` that passes the guard sets it to the timestamp
`t` it is given, so that it does not decrease when `t` is at least the old
value; and `init` of an uninitialised bridge sets it to 0. -/
theorem timestamp_changes (st : BridgeState) (op : Op) (s : Int) (b : Framebuffer) (t : Nat)
    (h0 : 0 ≤ s) (h8 : s < 8)
    (hop : op.updatesDisplay st s = false) (hinit : op = Op.init → st.g_initialized = true) :
    getVmuLastUpdate (op.apply st) s = getVmuLastUpdate st s
    ∧ getVmuLastUpdate ((Op.onVmuDisplayUpdate s b t).apply st) s
        = (if st.g_initialized && st.g_enabled then t else getVmuLastUpdate st s)
    ∧ (getVmuLastUpdate st s ≤ t →
        getVmuLastUpdate st s ≤ getVmuLastUpdate ((Op.onVmuDisplayUpdate s b t).apply st) s)
    ∧ getVmuLastUpdate (Op.init.apply st) s
        = (if st.g_initialized then getVmuLastUpdate st s else 0) := by
  have h := guard_false h0 h8
  have hupd : getVmuLastUpdate ((Op.onVmuDisplayUpdate s b t).apply st) s
      = (if st.g_initialized && st.g_enabled then t else getVmuLastUpdate st s) := by
    simp only [Op.apply]
    by_cases hg : st.g_initialized = false ∨ st.g_enabled = false
    · rw [onVmuDisplayUpdate_off st s b t hg]
      rcases hg with hg | hg <;> simp [hg]
    · obtain ⟨hi, he⟩ := gate_open hg
      rw [getVmuLastUpdate_inRange _ s h, onVmuDisplayUpdate_state st s b t hi he h]
      simp [hi, he]
  refine ⟨?_, hupd, ?_, ?_⟩
  · rw [getVmuLastUpdate_inRange _ s h, getVmuLastUpdate_inRange _ s h]
    exact apply_g_lastUpdate st s op h hop hinit
  · intro hle
    rw [hupd]
    split
    · exact hle
    · exact le_refl _
  · simp only [Op.apply]
    cases hi : st.g_initialized
    · rw [getVmuLastUpdate_inRange _ s h, init_fresh st hi]; simp
    · rw [init_running st hi]; simp

/-- C12, amended, in `updatedState` (timestamp 100 in slot 0): an update of
slot 1 leaves the timestamp of slot 0 as it is, an update of slot 0 with
timestamp 150 sets it to 150. -/
theorem timestamp_changes_witness :
    ((0 : Int) ≤ 0 ∧ (0 : Int) < 8
      ∧ (Op.onVmuDisplayUpdate 1 blackBuffer 150).updatesDisplay updatedState 0 = false
      ∧ (Op.onVmuDisplayUpdate 1 blackBuffer 150 = Op.init → updatedState.g_initialized = true))
    ∧ getVmuLastUpdate ((Op.onVmuDisplayUpdate 1 blackBuffer 150).apply updatedState) 0
        = getVmuLastUpdate updatedState 0
    ∧ getVmuLastUpdate ((Op.onVmuDisplayUpdate 0 blackBuffer 150).apply updatedState) 0
        = (if updatedState.g_initialized && updatedState.g_enabled then 150
           else getVmuLastUpdate updatedState 0)
    ∧ (getVmuLastUpdate updatedState 0 ≤ 150 →
        getVmuLastUpdate updatedState 0
          ≤ getVmuLastUpdate ((Op.onVmuDisplayUpdate 0 blackBuffer 150).apply updatedState) 0)
    ∧ getVmuLastUpdate (Op.init.apply updatedState) 0
        = (if updatedState.g_initialized then getVmuLastUpdate updatedState 0 else 0) :=
  ⟨⟨by decide, by decide, rfl, fun _ => rfl⟩,
    timestamp_changes updatedState (Op.onVmuDisplayUpdate 1 blackBuffer 150) 0 blackBuffer 150
      (by decide) (by decide) rfl (fun _ => rfl)⟩

/-- C13: the order of the source is the other one.  `onVmuDisplayUpdate`
stores the dirty flag (line 217) before it copies into the mirror (lines
222-225); with all its stores done one after the other it is the sequential
operation.  In `polledState`, where slot 0 is connected and its mirror holds
the all-white buffer, let the producer call
`onVmuDisplayUpdate(0, black, 200)` and let the consumer poll and copy after
the first store: the poll returns true, the copy succeeds and gives the
all-white buffer, the mirror as it was before the update; when both are done
the mirror holds the black buffer and the dirty flag is clear, so the next
poll returns false.  Had the consumer run after the fourth store, the copy
would have given the black buffer. -/
theorem poll_then_copy_race :
    runStores polledState (updateStores polledState 0 blackBuffer 200)
      = (internal.onVmuDisplayUpdate polledState 0 blackBuffer 200).1
    ∧ (updateStores polledState 0 blackBuffer 200).length = 4
    ∧ (pollAndCopyDuringUpdate osdIdle polledState 0 blackBuffer 200 (some zeroBuffer) 1 1).polled
        = true
    ∧ (pollAndCopyDuringUpdate osdIdle polledState 0 blackBuffer 200 (some zeroBuffer) 1 1).copied
        = (true, some (polledState.g_framebufferCopy 0))
    ∧ polledState.g_framebufferCopy 0 = whiteBuffer
    ∧ whiteBuffer 0 ≠ blackBuffer 0
    ∧ (pollAndCopyDuringUpdate osdIdle polledState 0 blackBuffer 200
        (some zeroBuffer) 1 1).final.g_framebufferCopy 0 = blackBuffer
    ∧ (isVmuDisplayDirty
        (pollAndCopyDuringUpdate osdIdle polledState 0 blackBuffer 200
          (some zeroBuffer) 1 1).final 0).1 = false
    ∧ (pollAndCopyDuringUpdate osdIdle polledState 0 blackBuffer 200 (some zeroBuffer) 4 4).polled
        = true
    ∧ (pollAndCopyDuringUpdate osdIdle polledState 0 blackBuffer 200 (some zeroBuffer) 4 4).copied
        = (true, some blackBuffer) :=
  ⟨runStores_updateStores polledState 0 blackBuffer 200, rfl, rfl, rfl, rfl, by decide,
    rfl, rfl, rfl, rfl⟩

/-- C14: for an identifier `s` in `[0, 8)`, `isVmuActive(s)` returns true
exactly when the connected flag of `s` in the registry is true or the status
`vmu_lcd_status` of `s` is true; the answer does not depend on
`g_initialized` and `g_enabled`, and a set status alone makes the slot
active, whatever the registry holds. -/
theorem active_iff_connected_or_status (osd : Osd) (st : BridgeState) (s : Int)
    (i e : Bool) (h0 : 0 ≤ s) (h8 : s < 8) :
    (isVmuActive osd st s = true
      ↔ (st.g_connected (slotIndex s (guard_false h0 h8)) = true
          ∨ osd.vmu_lcd_status (slotIndex s (guard_false h0 h8)) = true))
    ∧ isVmuActive osd { st with g_initialized := i, g_enabled := e } s = isVmuActive osd st s
    ∧ (osd.vmu_lcd_status (slotIndex s (guard_false h0 h8)) = true →
        isVmuActive osd st s = true) := by
  have h := guard_false h0 h8
  rw [isVmuActive_inRange _ _ _ h, isVmuActive_inRange _ _ _ h]
  refine ⟨by simp, rfl, ?_⟩
  intro hs
  simp [hs]

/-- C14 in the start state, never initialised and with an empty registry,
when the emulator side reports every slot present: slot 3 is active. -/
theorem active_iff_connected_or_status_witness :
    ((0 : Int) ≤ 3 ∧ (3 : Int) < 8)
    ∧ (isVmuActive osdPresent startup 3 = true
      ↔ (startup.g_connected (slotIndex 3 (guard_false (by decide) (by decide))) = true
          ∨ osdPresent.vmu_lcd_status (slotIndex 3 (guard_false (by decide) (by decide)))
              = true))
    ∧ isVmuActive osdPresent { startup with g_initialized := true, g_enabled := false } 3
        = isVmuActive osdPresent startup 3
    ∧ (osdPresent.vmu_lcd_status (slotIndex 3 (guard_false (by decide) (by decide))) = true →
        isVmuActive osdPresent startup 3 = true) :=
  ⟨⟨by decide, by decide⟩,
    active_iff_connected_or_status osdPresent startup 3 true false (by decide) (by decide)⟩

/-- C15: `getConnectedVmuCount()` is the number of slots in `[0, 8)` whose
connected flag in the registry is true; it lies between 0 and 8; the call
leaves the bridge state as it is. -/
theorem connected_count (st : BridgeState) :
    getConnectedVmuCount st = ((connectedSlots st).card : Int)
    ∧ 0 ≤ getConnectedVmuCount st
    ∧ getConnectedVmuCount st ≤ 8
    ∧ Op.getConnectedVmuCount.apply st = st := by
  rw [getConnectedVmuCount_eq_card]
  refine ⟨rfl, Int.natCast_nonneg _, ?_, rfl⟩
  have hle : (connectedSlots st).card ≤ (Finset.univ : Finset (Fin MAX_VMU_COUNT)).card :=
    Finset.card_le_card (Finset.subset_univ _)
  rw [Finset.card_univ, Fintype.card_fin] at hle
  exact_mod_cast hle

/-- C16: `isVmuDisplayDirty(s)` changes nothing but the dirty flag of slot
`s`: for every identifier `v` the value of `getVmuLastUpdate(v)` is the same
before and after, the connected flags, button masks, timestamps, mirror
buffers, `g_enabled`, `g_initialized` and the callback are as before, and so
is the dirty flag of every slot `j` other than `s`. -/
theorem dirty_poll_frame (st : BridgeState) (s v : Int) (j : Fin MAX_VMU_COUNT)
    (hj : ((j : Nat) : Int) ≠ s) :
    getVmuLastUpdate (isVmuDisplayDirty st s).2 v = getVmuLastUpdate st v
    ∧ (isVmuDisplayDirty st s).2.g_lastUpdate = st.g_lastUpdate
    ∧ (isVmuDisplayDirty st s).2.g_connected = st.g_connected
    ∧ (isVmuDisplayDirty st s).2.g_buttonState = st.g_buttonState
    ∧ (isVmuDisplayDirty st s).2.g_framebufferCopy = st.g_framebufferCopy
    ∧ (isVmuDisplayDirty st s).2.g_enabled = st.g_enabled
    ∧ (isVmuDisplayDirty st s).2.g_initialized = st.g_initialized
    ∧ (isVmuDisplayDirty st s).2.g_updateCallback = st.g_updateCallback
    ∧ (isVmuDisplayDirty st s).2.g_dirty j = st.g_dirty j := by
  obtain ⟨hc, hb, ht, hm, he, hi, hcb⟩ := isVmuDisplayDirty_frame st s
  refine ⟨?_, ht, hc, hb, hm, he, hi, hcb, ?_⟩
  · unfold getVmuLastUpdate
    rw [ht]
  · by_cases g : s < 0 ∨ s ≥ MAX_VMU_COUNT
    · unfold isVmuDisplayDirty; rw [dif_pos g]
    · rw [isVmuDisplayDirty_inRange st s g]
      have hne : j ≠ slotIndex s g := fun e => hj (e ▸ slotIndex_cast s g)
      exact Function.update_noteq hne false st.g_dirty

/-- C16 in `updatedState`, where slot 0 is dirty with timestamp 100: the poll
of slot 0 leaves the timestamps and the dirty flag of slot 1 as they are. -/
theorem dirty_poll_frame_witness :
    (((1 : Fin MAX_VMU_COUNT) : Nat) : Int) ≠ 0
    ∧ getVmuLastUpdate (isVmuDisplayDirty updatedState 0).2 0 = getVmuLastUpdate updatedState 0
    ∧ (isVmuDisplayDirty updatedState 0).2.g_lastUpdate = updatedState.g_lastUpdate
    ∧ (isVmuDisplayDirty updatedState 0).2.g_dirty 1 = updatedState.g_dirty 1 :=
  ⟨by decide,
    (dirty_poll_frame updatedState 0 0 1 (by decide)).1,
    (dirty_poll_frame updatedState 0 0 1 (by decide)).2.1,
    (dirty_poll_frame updatedState 0 0 1 (by decide)).2.2.2.2.2.2.2.2⟩

/-- C17, as stated, fails: after `init` and `onVmuConnectionChange(0, true)`
from the start state (no source buffer was supplied at all), the copy of slot
0 succeeds and writes the mirror as `init` cleared it, all pixels zero, so
byte 3 of a pixel it writes is not `0xFF`; every byte of that pixel is zero,
whichever of them holds alpha. -/
theorem copy_alpha_counterexample :
    (∀ op ∈ connectCalls, op.solidSource 3)
    ∧ ¬ (∀ r : Framebuffer,
          copyVmuFramebuffer osdIdle (run startup connectCalls) 0 (some whiteBuffer)
            = (true, some r) →
          ∀ p, channel 3 (r p) = 0xFF) := by
  refine ⟨?_, ?_⟩
  · intro op hop
    simp only [connectCalls, List.mem_cons, List.mem_singleton, List.not_mem_nil, or_false] at hop
    rcases hop with rfl | rfl <;> trivial
  · intro hall
    have hp := hall zeroBuffer rfl 0
    exact absurd hp (by decide)

/-- C17, amended: in a state reached from the start state by calls whose
source buffers have `0xFF` in byte `k` of every pixel (`k` being the byte
that holds alpha), the buffer that a successful `copyVmuFramebuffer` writes
either is all-zero (a mirror never written, or cleared by `init` or by a
disconnection) or has `0xFF` in byte `k` of every pixel. -/
theorem copy_alpha_or_blank (k : Nat) (ops : List Op) (osd : Osd) (s : Int)
    (dest : Option Framebuffer) (r : Framebuffer) (p : Fin VMU_LCD_PIXELS)
    (hsrc : ∀ op ∈ ops, op.solidSource k)
    (hcopy : copyVmuFramebuffer osd (run startup ops) s dest = (true, some r)) :
    (r = zeroBuffer ∨ solidBuffer k r) ∧ (r p = 0 ∨ channel k (r p) = 0xFF) := by
  have hinv : mirrorBlankOrSolid k (run startup ops) :=
    run_invariant (mirrorBlankOrSolid k) (Op.solidSource k)
      (fun st op => apply_mirrorBlankOrSolid k st op) ops startup
      (fun _ => Or.inl rfl) hsrc
  obtain ⟨i, hr⟩ := copyVmuFramebuffer_true osd _ s dest r hcopy
  have hcase : r = zeroBuffer ∨ solidBuffer k r := by
    rw [hr]; exact hinv i
  refine ⟨hcase, ?_⟩
  rcases hcase with hz | hs
  · left; rw [hz]; rfl
  · right; exact hs p

/-- C17, amended, after `init` and an update of slot 0 with the all-white
buffer, with byte 3 as alpha: the copy of slot 0 writes the all-white buffer,
and its pixel 0 has `0xFF` in byte 3. -/
theorem copy_alpha_or_blank_witness :
    ((∀ op ∈ updateCalls, op.solidSource 3)
      ∧ copyVmuFramebuffer osdIdle (run startup updateCalls) 0 (some zeroBuffer)
          = (true, some whiteBuffer))
    ∧ (whiteBuffer = zeroBuffer ∨ solidBuffer 3 whiteBuffer)
    ∧ (whiteBuffer 0 = 0 ∨ channel 3 (whiteBuffer 0) = 0xFF) :=
  have hsrc : ∀ op ∈ updateCalls, op.solidSource 3 := by
    intro op hop
    simp only [updateCalls, List.mem_cons, List.mem_singleton, List.not_mem_nil, or_false] at hop
    rcases hop with rfl | rfl
    · trivial
    · intro p; show channel 3 0xFFFFFFFF = 0xFF; decide
  ⟨⟨hsrc, rfl⟩,
    copy_alpha_or_blank 3 updateCalls osdIdle 0 (some zeroBuffer) whiteBuffer 0 hsrc rfl⟩

/-- C18: for two distinct identifiers `s` and `s'` in `[0, 8)`, the calls
`onVmuDisplayUpdate(s, ...)`, `onVmuConnectionChange(s, ...)`,
`isVmuDisplayDirty(s)` and `sendVmuButtonState(s, ...)` leave the slot of
`s'` as it was: its connected flag, dirty flag, button mask, timestamp and
mirror buffer. -/
theorem slots_independent (st : BridgeState) (s s' : Int) (b : Framebuffer) (t : Nat)
    (c : Bool) (button : VmuButton) (pressed : Bool)
    (h0 : 0 ≤ s) (h8 : s < 8) (h0' : 0 ≤ s') (h8' : s' < 8) (hne : s ≠ s') :
    (internal.onVmuDisplayUpdate st s b t).1.slot (slotIndex s' (guard_false h0' h8'))
      = st.slot (slotIndex s' (guard_false h0' h8'))
    ∧ (internal.onVmuConnectionChange st s c).slot (slotIndex s' (guard_false h0' h8'))
      = st.slot (slotIndex s' (guard_false h0' h8'))
    ∧ (isVmuDisplayDirty st s).2.slot (slotIndex s' (guard_false h0' h8'))
      = st.slot (slotIndex s' (guard_false h0' h8'))
    ∧ (sendVmuButtonState st s button pressed).slot (slotIndex s' (guard_false h0' h8'))
      = st.slot (slotIndex s' (guard_false h0' h8')) := by
  have h := guard_false h0 h8
  have h' := guard_false h0' h8'
  have hidx : slotIndex s' h' ≠ slotIndex s h := fun e =>
    hne ((slotIndex_eq_iff h' h).1 e).symm
  refine ⟨?_, ?_, ?_, ?_⟩
  · by_cases hg : st.g_initialized = false ∨ st.g_enabled = false
    · rw [onVmuDisplayUpdate_off st s b t hg]
    · obtain ⟨hi, he⟩ := gate_open hg
      rw [onVmuDisplayUpdate_state st s b t hi he h]
      apply slot_eq_of_fields <;> simp [Function.update_noteq hidx]
  · cases hi : st.g_initialized
    · rw [onVmuConnectionChange_off st s c hi]
    · rw [onVmuConnectionChange_inRange st s c hi h]
      apply slot_eq_of_fields <;> cases c <;> simp [Function.update_noteq hidx]
  · rw [isVmuDisplayDirty_inRange st s h]
    apply slot_eq_of_fields <;> simp [Function.update_noteq hidx]
  · rw [sendVmuButtonState_inRange st s button pressed h]
    apply slot_eq_of_fields <;> simp [Function.update_noteq hidx]

/-- C18 in `pressedState`, where slot 0 is connected and dirty, holds the
all-white buffer, timestamp 100 and mask `0x01`: calls for slot 1 leave slot 0
as it is. -/
theorem slots_independent_witness :
    ((0 : Int) ≤ 1 ∧ (1 : Int) < 8 ∧ (0 : Int) ≤ 0 ∧ (0 : Int) < 8 ∧ (1 : Int) ≠ 0)
    ∧ (internal.onVmuDisplayUpdate pressedState 1 blackBuffer 200).1.slot
          (slotIndex 0 (guard_false (by decide) (by decide)))
        = pressedState.slot (slotIndex 0 (guard_false (by decide) (by decide)))
    ∧ (internal.onVmuConnectionChange pressedState 1 false).slot
          (slotIndex 0 (guard_false (by decide) (by decide)))
        = pressedState.slot (slotIndex 0 (guard_false (by decide) (by decide)))
    ∧ (isVmuDisplayDirty pressedState 1).2.slot
          (slotIndex 0 (guard_false (by decide) (by decide)))
        = pressedState.slot (slotIndex 0 (guard_false (by decide) (by decide)))
    ∧ (sendVmuButtonState pressedState 1 VmuButton.B true).slot
          (slotIndex 0 (guard_false (by decide) (by decide)))
        = pressedState.slot (slotIndex 0 (guard_false (by decide) (by decide))) :=
  ⟨⟨by decide, by decide, by decide, by decide, by decide⟩,
    slots_independent pressedState 1 0 blackBuffer 200 false VmuButton.B true
      (by decide) (by decide) (by decide) (by decide) (by decide)⟩

/-- C19: in every state reached from the start state by a sequence of calls
of the bridge, a slot `i` whose connected flag in the registry is false has
an all-zero mirror buffer; so `copyVmuFramebuffer` for that slot returns true
with an all-zero buffer when the status `vmu_lcd_status` of the slot is set,
and false otherwise. -/
theorem disconnected_mirror_blank (ops : List Op) (osd : Osd) (i : Fin MAX_VMU_COUNT)
    (d : Framebuffer) (hc : (run startup ops).g_connected i = false) :
    (run startup ops).g_framebufferCopy i = zeroBuffer
    ∧ copyVmuFramebuffer osd (run startup ops) ((i : Nat) : Int) (some d)
        = (if osd.vmu_lcd_status i then (true, some zeroBuffer) else (false, some d)) := by
  have hinv : mirrorBlankWhenDisconnected (run startup ops) :=
    run_invariant mirrorBlankWhenDisconnected (fun _ => True)
      (fun st op hst _ => apply_mirrorBlankWhenDisconnected st op hst) ops startup
      (fun _ _ => rfl) (fun _ _ => trivial)
  have hm := hinv i hc
  refine ⟨hm, ?_⟩
  have h := guard_false_ofFin i
  rw [copyVmuFramebuffer_inRange _ _ _ _ h, isVmuActive_inRange _ _ _ h, slotIndex_ofFin i h,
    hc, hm]
  cases osd.vmu_lcd_status i <;> simp

/-- C19 after `init`, an update of slot 0 with the all-white buffer and the
disconnection of slot 0, while the emulator side still reports the slot
present: the mirror of slot 0 is all-zero and the copy gives that. -/
theorem disconnected_mirror_blank_witness :
    (run startup disconnectCalls).g_connected 0 = false
    ∧ (run startup disconnectCalls).g_framebufferCopy 0 = zeroBuffer
    ∧ copyVmuFramebuffer osdPresent (run startup disconnectCalls)
          (((0 : Fin MAX_VMU_COUNT) : Nat) : Int) (some whiteBuffer)
        = (if osdPresent.vmu_lcd_status 0 then (true, some zeroBuffer)
           else (false, some whiteBuffer)) :=
  ⟨rfl, disconnected_mirror_blank disconnectCalls osdPresent 0 whiteBuffer rfl⟩

/-- C20: in an initialised and enabled bridge, for an identifier `s` in
`[0, 8)`, `onVmuDisplayUpdate(s, b, t)` sets the connected flag of `s` in the
registry, whatever it was, also right after `onVmuConnectionChange(s, false)`;
afterwards the connected slots are the ones of before and the slot of `s`,
`getConnectedVmuCount()` counts them and is at least 1, and `isVmuActive(s)`
is true whatever the status `vmu_lcd_status` says. -/
theorem update_implies_connected (osd : Osd) (st : BridgeState) (s : Int) (b : Framebuffer)
    (t : Nat) (hinit : st.g_initialized = true) (hen : st.g_enabled = true)
    (h0 : 0 ≤ s) (h8 : s < 8) :
    (internal.onVmuDisplayUpdate st s b t).1.g_connected (slotIndex s (guard_false h0 h8)) = true
    ∧ (internal.onVmuDisplayUpdate (internal.onVmuConnectionChange st s false) s b t).1.g_connected
        (slotIndex s (guard_false h0 h8)) = true
    ∧ connectedSlots (internal.onVmuDisplayUpdate st s b t).1
        = insert (slotIndex s (guard_false h0 h8)) (connectedSlots st)
    ∧ getConnectedVmuCount (internal.onVmuDisplayUpdate st s b t).1
        = ((insert (slotIndex s (guard_false h0 h8)) (connectedSlots st)).card : Int)
    ∧ 1 ≤ getConnectedVmuCount (internal.onVmuDisplayUpdate st s b t).1
    ∧ isVmuActive osd (internal.onVmuDisplayUpdate st s b t).1 s = true := by
  have h := guard_false h0 h8
  have hset : connectedSlots (internal.onVmuDisplayUpdate st s b t).1
      = insert (slotIndex s h) (connectedSlots st) := by
    rw [onVmuDisplayUpdate_state st s b t hinit hen h]
    unfold connectedSlots
    ext j
    by_cases hj : j = slotIndex s h
    · simp [hj]
    · simp [hj, Function.update_noteq hj]
  have hcount : getConnectedVmuCount (internal.onVmuDisplayUpdate st s b t).1
      = ((insert (slotIndex s h) (connectedSlots st)).card : Int) := by
    rw [getConnectedVmuCount_eq_card, hset]
  have hi' : (internal.onVmuConnectionChange st s false).g_initialized = true := by
    rw [(onVmuConnectionChange_frame st s false).2.2.2.1]; exact hinit
  have he' : (internal.onVmuConnectionChange st s false).g_enabled = true := by
    rw [(onVmuConnectionChange_frame st s false).2.2.1]; exact hen
  refine ⟨?_, ?_, hset, hcount, ?_, ?_⟩
  · rw [onVmuDisplayUpdate_state st s b t hinit hen h]; simp
  · rw [onVmuDisplayUpdate_state _ s b t hi' he' h]; simp
  · rw [hcount]
    have hpos : 0 < (insert (slotIndex s h) (connectedSlots st)).card :=
      Finset.card_pos.2 ⟨slotIndex s h, Finset.mem_insert_self _ _⟩
    exact_mod_cast hpos
  · rw [isVmuActive_inRange _ _ _ h, onVmuDisplayUpdate_state st s b t hinit hen h]; simp

/-- C20 right after `init`, with no connection event ever received and no
slot reported by the emulator side: an update of slot 2 makes it connected,
counted and active. -/
theorem update_implies_connected_witness :
    ((init startup).g_initialized = true ∧ (init startup).g_enabled = true
      ∧ (0 : Int) ≤ 2 ∧ (2 : Int) < 8)
    ∧ (internal.onVmuDisplayUpdate (init startup) 2 whiteBuffer 100).1.g_connected
        (slotIndex 2 (guard_false (by decide) (by decide))) = true
    ∧ 1 ≤ getConnectedVmuCount (internal.onVmuDisplayUpdate (init startup) 2 whiteBuffer 100).1
    ∧ isVmuActive osdIdle (internal.onVmuDisplayUpdate (init startup) 2 whiteBuffer 100).1 2
        = true :=
  ⟨⟨rfl, rfl, by decide, by decide⟩,
    (update_implies_connected osdIdle (init startup) 2 whiteBuffer 100 rfl rfl
      (by decide) (by decide)).1,
    (update_implies_connected osdIdle (init startup) 2 whiteBuffer 100 rfl rfl
      (by decide) (by decide)).2.2.2.2.1,
    (update_implies_connected osdIdle (init startup) 2 whiteBuffer 100 rfl rfl
      (by decide) (by decide)).2.2.2.2.2⟩

end vmu_bridge
